import Mathlib

/-!
Verification of the IEX TOPS 1.6 binary message decoder (src/tops.rs).

The decoder is a nom parser combinator pipeline.  We shallowly embed it:
an input is a list of byte values (naturals below 256), a parser returns
either the unconsumed remainder paired with a decoded value, or a failure.
nom failures are either recoverable errors (Err::Error, carrying an error
kind such as Tag, Eof or TagBits) or an incomplete-input condition
(Err::Incomplete).  The alternation combinator (alt) recovers only from
Err::Error, returning the error of the last alternative; Err::Incomplete aborts
the alternation, exactly as in nom.

The utils module of the repository (price, timestamp, iex_string) is not part
of the provided sources; those three primitives are modelled from the
specification, as marked on their doc comments.  Everything else is a
direct translation of src/tops.rs.
-/

namespace IexTops

/-- A byte buffer: list of byte values. -/
abbrev Bytes := List Nat

/-- nom ErrorKind values that the translated combinators can produce:
Tag (literal byte mismatch), Eof (complete-variant reader out of bytes),
TagBits (reserved-bit pattern mismatch inside a bits parser). -/
inductive ErrKind where
  | tagK
  | eofK
  | tagBitsK
deriving DecidableEq, Repr

/-- nom failure: Err::Incomplete, or a recoverable Err::Error with a kind. -/
inductive PErr where
  | incomplete
  | error (k : ErrKind)
deriving DecidableEq, Repr

/-- Result of a parser: remaining input and value, or a failure. -/
abbrev PResult (α : Type) := Except PErr (Bytes × α)

instance {ε α : Type} [DecidableEq ε] [DecidableEq α] : DecidableEq (Except ε α) :=
  fun x y =>
    match x, y with
    | Except.ok a, Except.ok b =>
      if h : a = b then isTrue (by rw [h]) else isFalse (fun hh => h (Except.ok.inj hh))
    | Except.ok _, Except.error _ => isFalse (fun hh => Except.noConfusion hh)
    | Except.error _, Except.ok _ => isFalse (fun hh => Except.noConfusion hh)
    | Except.error e, Except.error f =>
      if h : e = f then isTrue (by rw [h]) else isFalse (fun hh => h (Except.error.inj hh))

/-- Sequencing of parsers (the nom tuple and question-mark chaining): any failure of the
first parser propagates. -/
def pbind {α β : Type} (p : Bytes → PResult α) (f : α → Bytes → PResult β) :
    Bytes → PResult β :=
  fun input =>
    match p input with
    | Except.error e => Except.error e
    | Except.ok (rest, a) => f a rest

/-- the nom map combinator. -/
def pmap {α β : Type} (p : Bytes → PResult α) (f : α → β) : Bytes → PResult β :=
  pbind p (fun a rest => Except.ok (rest, f a))

/-- the nom alt combinator on two alternatives: the second runs only when the first
fails with a recoverable Err::Error; an Err::Incomplete aborts.  On double
failure nom keeps the second (later) error. -/
def palt {α : Type} (p q : Bytes → PResult α) : Bytes → PResult α :=
  fun input =>
    match p input with
    | Except.error (PErr.error _) => q input
    | r => r

/-- nom bytes::complete::tag for a single literal byte: mismatch and
end-of-input both give Err::Error(Tag). -/
def tagByte (t : Nat) : Bytes → PResult Unit :=
  fun input =>
    match input with
    | [] => Except.error (PErr.error ErrKind.tagK)
    | b :: rest =>
      if b = t then Except.ok (rest, ()) else Except.error (PErr.error ErrKind.tagK)

/-- nom bytes::complete::take n: consumes exactly n bytes, with
Err::Error(Eof) when fewer are available. -/
def takeBytes (n : Nat) : Bytes → PResult Bytes :=
  fun input =>
    if n ≤ input.length then Except.ok (input.drop n, input.take n)
    else Except.error (PErr.error ErrKind.eofK)

/-- Little-endian value of a byte list: first byte is least significant. -/
def leBytes : Bytes → Nat
  | [] => 0
  | b :: rest => b + 256 * leBytes rest

/-- nom number::complete::le_u32: 4-byte little-endian unsigned integer,
Err::Error(Eof) on insufficient input. -/
def le_u32 : Bytes → PResult Nat :=
  fun input =>
    if 4 ≤ input.length then Except.ok (input.drop 4, leBytes (input.take 4))
    else Except.error (PErr.error ErrKind.eofK)

/-- Twos-complement reinterpretation of an unsigned 64-bit value. -/
def toI64 (n : Nat) : Int :=
  if n < 2 ^ 63 then (n : Int) else (n : Int) - 2 ^ 64

/-- nom number::complete::le_i64: 8-byte little-endian signed integer,
Err::Error(Eof) on insufficient input. -/
def le_i64 : Bytes → PResult Int :=
  fun input =>
    if 8 ≤ input.length then Except.ok (input.drop 8, toI64 (leBytes (input.take 8)))
    else Except.error (PErr.error ErrKind.eofK)

/-- Modelled from the spec: utils::price of the repository (the utils
module is not among the provided sources).  Reads a little-endian integer
representing price scaled by 10,000 and divides by 10,000; fails only on
insufficient input bytes, reporting the incomplete-input condition.  The
spec states a 4-byte read, but the tests of the repository itself
(quote_update_example and trade_report_example in src/tops.rs) fix the
overall message sizes at 42 and 38 bytes with zero remainder, which
forces an 8-byte price field; the width is therefore 8 here, everything
else follows the words of the spec.  The floating-point division of the spec
is modelled exactly, as a rational. -/
def price : Bytes → PResult ℚ :=
  fun input =>
    if 8 ≤ input.length then
      Except.ok (input.drop 8, (leBytes (input.take 8) : ℚ) / 10000)
    else Except.error PErr.incomplete

/-- The fixed-point price primitive exactly as the spec words it (a
4-byte little-endian unsigned read, scaled by 10,000): kept alongside
the 8-byte version above to compare the claim of the spec with the behavior
the repository tests pin down. -/
def priceSpec4 : Bytes → PResult ℚ :=
  fun input =>
    if 4 ≤ input.length then
      Except.ok (input.drop 4, (leBytes (input.take 4) : ℚ) / 10000)
    else Except.error PErr.incomplete

/-- Modelled from the spec: utils::timestamp of the repository (the utils
module is not among the provided sources).  Reads an 8-byte little-endian
signed integer as nanoseconds since the Unix epoch; fails only on
insufficient input bytes, reporting the incomplete-input condition.  The
UTC instant is modelled by its nanosecond count. -/
def timestamp : Bytes → PResult Int :=
  fun input =>
    if 8 ≤ input.length then Except.ok (input.drop 8, toI64 (leBytes (input.take 8)))
    else Except.error PErr.incomplete

/-- Trailing ASCII-space (0x20) padding removal. -/
def dropTrailingSpaces (l : Bytes) : Bytes :=
  (l.reverse.dropWhile (fun b => b = 0x20)).reverse

/-- Bytes to text, one character per byte. -/
def bytesToString (l : Bytes) : String :=
  String.mk (l.map (fun b => Char.ofNat b))

/-- Modelled from the spec: utils::iex_string of the repository (the utils
module is not among the provided sources).  Reads exactly w bytes, trims
trailing ASCII space padding and builds the symbol text; fails only on
insufficient input bytes, reporting the incomplete-input condition.  The
generic Symbol parameter is instantiated with text, as the repository tests themselves
do with String. -/
def iex_string (w : Nat) : Bytes → PResult String :=
  fun input =>
    if w ≤ input.length then
      Except.ok (input.drop w, bytesToString (dropTrailingSpaces (input.take w)))
    else Except.error PErr.incomplete

inductive SystemEventType where
  | startOfMessages
  | startOfSystemHours
  | startOfRegularHours
  | endOfRegularHours
  | endOfSystemHours
  | endOfMessages
deriving DecidableEq, Repr

structure SystemEvent where
  event_type : SystemEventType
  timestamp : Int
deriving DecidableEq, Repr

/-- The inner subtype alternation of system_event: six single-byte tags,
each mapped to one SystemEventType variant; any other byte (or missing
byte) yields the Err::Error(Tag) of the last alternative. -/
def systemEventSubtype : Bytes → PResult SystemEventType :=
  fun input =>
    match input with
    | [] => Except.error (PErr.error ErrKind.tagK)
    | b :: rest =>
      if b = 0x4f then Except.ok (rest, SystemEventType.startOfMessages)
      else if b = 0x53 then Except.ok (rest, SystemEventType.startOfSystemHours)
      else if b = 0x52 then Except.ok (rest, SystemEventType.startOfRegularHours)
      else if b = 0x4d then Except.ok (rest, SystemEventType.endOfRegularHours)
      else if b = 0x45 then Except.ok (rest, SystemEventType.endOfSystemHours)
      else if b = 0x43 then Except.ok (rest, SystemEventType.endOfMessages)
      else Except.error (PErr.error ErrKind.tagK)

/-- Translation of system_event from src/tops.rs. -/
def system_event : Bytes → PResult SystemEvent :=
  pbind (tagByte 0x53) (fun _ =>
  pbind systemEventSubtype (fun et =>
  pmap timestamp (fun ts => SystemEvent.mk et ts)))

inductive MarketSession where
  | regular
  | outOfHours
deriving DecidableEq, Repr

structure QuoteUpdate where
  available : Bool
  market_session : MarketSession
  timestamp : Int
  symbol : String
  bid_size : Nat
  bid_price : ℚ
  ask_size : Nat
  ask_price : ℚ
deriving DecidableEq, Repr

/-- The bit-level flag parse of quote_update: one byte read MSB first as
two booleans followed by a six-bit reserved pattern that must be zero
(bits tag, Err::Error(TagBits) on mismatch). -/
def quoteFlags : Bytes → PResult (Bool × Bool) :=
  fun input =>
    match input with
    | [] => Except.error (PErr.error ErrKind.eofK)
    | b :: rest =>
      if b % 64 = 0 then Except.ok (rest, (b.testBit 7, b.testBit 6))
      else Except.error (PErr.error ErrKind.tagBitsK)

/-- Translation of quote_update from src/tops.rs: tag 0x51, flag byte,
timestamp, 8-byte symbol, bid size then bid price, ask price then ask
size. -/
def quote_update : Bytes → PResult QuoteUpdate :=
  pbind (tagByte 0x51) (fun _ =>
  pbind quoteFlags (fun fl =>
  pbind timestamp (fun ts =>
  pbind (iex_string 8) (fun sym =>
  pbind le_u32 (fun bidSize =>
  pbind price (fun bidPrice =>
  pbind price (fun askPrice =>
  pmap le_u32 (fun askSize =>
    QuoteUpdate.mk (!fl.1)
      (if fl.2 then MarketSession.outOfHours else MarketSession.regular)
      ts sym bidSize bidPrice askSize askPrice))))))))

/-- The quote update decoder as it would behave were the price primitive
the 4-byte read of the spec: identical to quote_update except that both price
fields use priceSpec4.  Used to compare the layout the spec states with
the behavior the repository tests pin down. -/
def quoteUpdateSpecPrice4 : Bytes → PResult QuoteUpdate :=
  pbind (tagByte 0x51) (fun _ =>
  pbind quoteFlags (fun fl =>
  pbind timestamp (fun ts =>
  pbind (iex_string 8) (fun sym =>
  pbind le_u32 (fun bidSize =>
  pbind priceSpec4 (fun bidPrice =>
  pbind priceSpec4 (fun askPrice =>
  pmap le_u32 (fun askSize =>
    QuoteUpdate.mk (!fl.1)
      (if fl.2 then MarketSession.outOfHours else MarketSession.regular)
      ts sym bidSize bidPrice askSize askPrice))))))))

structure SaleCondition where
  intermarket_sweep : Bool
  extended_hours : Bool
  odd_lot : Bool
  trade_through_exempt : Bool
  single_price : Bool
deriving DecidableEq, Repr

/-- Translation of sale_condition from src/tops.rs: one byte read MSB
first as five booleans followed by a three-bit reserved pattern that must
be zero (bits tag, Err::Error(TagBits) on mismatch). -/
def sale_condition : Bytes → PResult SaleCondition :=
  fun input =>
    match input with
    | [] => Except.error (PErr.error ErrKind.eofK)
    | b :: rest =>
      if b % 8 = 0 then
        Except.ok (rest, SaleCondition.mk (b.testBit 7) (b.testBit 6) (b.testBit 5)
          (b.testBit 4) (b.testBit 3))
      else Except.error (PErr.error ErrKind.tagBitsK)

structure TradeReport where
  sale_condition : SaleCondition
  timestamp : Int
  symbol : String
  size : Nat
  price : ℚ
  id : Int
deriving DecidableEq, Repr

/-- Translation of trade_report from src/tops.rs: tag 0x54, sale
condition byte, timestamp, 8-byte symbol, size, price, trade id. -/
def trade_report : Bytes → PResult TradeReport :=
  pbind (tagByte 0x54) (fun _ =>
  pbind sale_condition (fun sc =>
  pbind timestamp (fun ts =>
  pbind (iex_string 8) (fun sym =>
  pbind le_u32 (fun sz =>
  pbind price (fun px =>
  pmap le_i64 (fun tid =>
    TradeReport.mk sc ts sym sz px tid)))))))

/-- Translation of the dummy_message_parser macro from src/tops.rs: match
the tag byte, consume the fixed body length, yield no payload. -/
def dummyMessage (t len : Nat) : Bytes → PResult Unit :=
  pbind (tagByte t) (fun _ => pmap (takeBytes len) (fun _ => ()))

def security_directory : Bytes → PResult Unit := dummyMessage 0x44 30

def trading_status : Bytes → PResult Unit := dummyMessage 0x48 21

def retail_liquidity_indicator : Bytes → PResult Unit := dummyMessage 0x49 17

def operational_halt_status : Bytes → PResult Unit := dummyMessage 0x4f 17

def short_sale_price_test_status : Bytes → PResult Unit := dummyMessage 0x50 18

def official_price : Bytes → PResult Unit := dummyMessage 0x58 25

def trade_break : Bytes → PResult Unit := dummyMessage 0x42 37

def auction_information : Bytes → PResult Unit := dummyMessage 0x41 79

inductive Tops1_6Message where
  | systemEvent (e : SystemEvent)
  | securityDirectory
  | tradingStatus
  | retailLiquidityIndicator
  | operationalHaltStatus
  | shortSalePriceTestStatus
  | quoteUpdate (q : QuoteUpdate)
  | tradeReport (t : TradeReport)
  | officialPrice
  | tradeBreak
  | auctionInformation
deriving DecidableEq, Repr

/-- The first alternative of the dispatcher: system_event mapped into the
message union (map(system_event, Tops1_6Message::SystemEvent)). -/
def altSystemEvent : Bytes → PResult Tops1_6Message :=
  pmap system_event Tops1_6Message.systemEvent

def altSecurityDirectory : Bytes → PResult Tops1_6Message :=
  pmap security_directory (fun _ => Tops1_6Message.securityDirectory)

def altTradingStatus : Bytes → PResult Tops1_6Message :=
  pmap trading_status (fun _ => Tops1_6Message.tradingStatus)

def altRetailLiquidityIndicator : Bytes → PResult Tops1_6Message :=
  pmap retail_liquidity_indicator (fun _ => Tops1_6Message.retailLiquidityIndicator)

def altOperationalHaltStatus : Bytes → PResult Tops1_6Message :=
  pmap operational_halt_status (fun _ => Tops1_6Message.operationalHaltStatus)

def altShortSalePriceTestStatus : Bytes → PResult Tops1_6Message :=
  pmap short_sale_price_test_status (fun _ => Tops1_6Message.shortSalePriceTestStatus)

def altQuoteUpdate : Bytes → PResult Tops1_6Message :=
  pmap quote_update Tops1_6Message.quoteUpdate

def altTradeReport : Bytes → PResult Tops1_6Message :=
  pmap trade_report Tops1_6Message.tradeReport

def altOfficialPrice : Bytes → PResult Tops1_6Message :=
  pmap official_price (fun _ => Tops1_6Message.officialPrice)

def altTradeBreak : Bytes → PResult Tops1_6Message :=
  pmap trade_break (fun _ => Tops1_6Message.tradeBreak)

def altAuctionInformation : Bytes → PResult Tops1_6Message :=
  pmap auction_information (fun _ => Tops1_6Message.auctionInformation)

/-- Translation of tops_1_6_message from src/tops.rs: the alt chain over
the eleven message shape decoders, in source order. -/
def tops_1_6_message : Bytes → PResult Tops1_6Message :=
  palt altSystemEvent
  (palt altSecurityDirectory
  (palt altTradingStatus
  (palt altRetailLiquidityIndicator
  (palt altOperationalHaltStatus
  (palt altShortSalePriceTestStatus
  (palt altQuoteUpdate
  (palt altTradeReport
  (palt altOfficialPrice
  (palt altTradeBreak
  altAuctionInformation)))))))))

/-- The eleven top-level tag bytes, in the priority order of the dispatcher. -/
def knownTags : List Nat :=
  [0x53, 0x44, 0x48, 0x49, 0x4f, 0x50, 0x51, 0x54, 0x58, 0x42, 0x41]

/-- The alternatives of the dispatcher paired with their leading tag bytes, in
the priority order of the source. -/
def dispatchTable : List (Nat × (Bytes → PResult Tops1_6Message)) :=
  [(0x53, altSystemEvent),
   (0x44, altSecurityDirectory),
   (0x48, altTradingStatus),
   (0x49, altRetailLiquidityIndicator),
   (0x4f, altOperationalHaltStatus),
   (0x50, altShortSalePriceTestStatus),
   (0x51, altQuoteUpdate),
   (0x54, altTradeReport),
   (0x58, altOfficialPrice),
   (0x42, altTradeBreak),
   (0x41, altAuctionInformation)]

/-- the nom alt over a list of alternatives, with an empty-list default of
the tag-mismatch error of the dispatcher. -/
def altList {α : Type} : List (Bytes → PResult α) → Bytes → PResult α
  | [], _ => Except.error (PErr.error ErrKind.tagK)
  | p :: ps, input =>
    match p input with
    | Except.error (PErr.error _) => altList ps input
    | r => r

/-- The 42-byte QuoteUpdate reference vector from the repository tests. -/
def quoteVec : Bytes :=
  [0x51, 0x00, 0xAC, 0x63, 0xC0, 0x20, 0x96, 0x86, 0x6D, 0x14, 0x5A, 0x49, 0x45, 0x58,
   0x54, 0x20, 0x20, 0x20, 0xE4, 0x25, 0x00, 0x00, 0x24, 0x1D, 0x0F, 0x00, 0x00, 0x00,
   0x00, 0x00, 0xEC, 0x1D, 0x0F, 0x00, 0x00, 0x00, 0x00, 0x00, 0xE8, 0x03, 0x00, 0x00]

/-! ### Combinator lemmas -/

theorem pbind_ok {α β : Type} {p : Bytes → PResult α} {f : α → Bytes → PResult β}
    {input rest : Bytes} {a : α} (h : p input = Except.ok (rest, a)) :
    pbind p f input = f a rest := by
  simp [pbind, h]

theorem pbind_err {α β : Type} {p : Bytes → PResult α} {f : α → Bytes → PResult β}
    {input : Bytes} {e : PErr} (h : p input = Except.error e) :
    pbind p f input = Except.error e := by
  simp [pbind, h]

theorem pmap_ok {α β : Type} {p : Bytes → PResult α} {f : α → β}
    {input rest : Bytes} {a : α} (h : p input = Except.ok (rest, a)) :
    pmap p f input = Except.ok (rest, f a) := by
  simp [pmap, pbind, h]

theorem pmap_err {α β : Type} {p : Bytes → PResult α} {f : α → β}
    {input : Bytes} {e : PErr} (h : p input = Except.error e) :
    pmap p f input = Except.error e := by
  simp [pmap, pbind, h]

theorem palt_ok {α : Type} {p q : Bytes → PResult α} {input : Bytes}
    {z : Bytes × α} (h : p input = Except.ok z) :
    palt p q input = Except.ok z := by
  simp [palt, h]

theorem palt_incomplete {α : Type} {p q : Bytes → PResult α} {input : Bytes}
    (h : p input = Except.error PErr.incomplete) :
    palt p q input = Except.error PErr.incomplete := by
  simp [palt, h]

theorem palt_fallthrough {α : Type} {p q : Bytes → PResult α} {input : Bytes}
    {k : ErrKind} (h : p input = Except.error (PErr.error k)) :
    palt p q input = q input := by
  simp [palt, h]

theorem pbind_ok_iff {α β : Type} {p : Bytes → PResult α} {f : α → Bytes → PResult β}
    {input : Bytes} {z : Bytes × β} :
    pbind p f input = Except.ok z ↔
      ∃ rest a, p input = Except.ok (rest, a) ∧ f a rest = Except.ok z := by
  unfold pbind
  cases h : p input with
  | error e => simp [h]
  | ok w =>
    obtain ⟨rest, a⟩ := w
    constructor
    · intro hz; exact ⟨rest, a, rfl, hz⟩
    · rintro ⟨rest2, a2, he, hz⟩
      obtain ⟨h1, h2⟩ := Prod.mk.injEq .. ▸ Except.ok.inj he
      subst h1; subst h2; exact hz

theorem pmap_ok_iff {α β : Type} {p : Bytes → PResult α} {f : α → β}
    {input : Bytes} {z : Bytes × β} :
    pmap p f input = Except.ok z ↔
      ∃ rest a, p input = Except.ok (rest, a) ∧ z = (rest, f a) := by
  unfold pmap
  rw [pbind_ok_iff]
  constructor
  · rintro ⟨rest, a, hp, hf⟩
    exact ⟨rest, a, hp, (Except.ok.inj hf).symm⟩
  · rintro ⟨rest, a, hp, hz⟩
    exact ⟨rest, a, hp, by rw [hz]⟩

/-! ### Primitive step lemmas -/

theorem tagByte_eq {t : Nat} {rest : Bytes} : tagByte t (t :: rest) = Except.ok (rest, ()) := by
  simp [tagByte]

theorem tagByte_ne {t b : Nat} {rest : Bytes} (h : b ≠ t) :
    tagByte t (b :: rest) = Except.error (PErr.error ErrKind.tagK) := by
  simp [tagByte, h]

theorem tagByte_nil (t : Nat) : tagByte t [] = Except.error (PErr.error ErrKind.tagK) := rfl

theorem tagByte_ok_iff {t : Nat} {input rest : Bytes} {u : Unit} :
    tagByte t input = Except.ok (rest, u) ↔ input = t :: rest := by
  unfold tagByte
  cases input with
  | nil => simp
  | cons b bs =>
    by_cases hb : b = t
    · subst hb; simp
    · simp [hb]

theorem quoteFlags_ok {b : Nat} {rest : Bytes} (h : b % 64 = 0) :
    quoteFlags (b :: rest) = Except.ok (rest, (b.testBit 7, b.testBit 6)) := by
  simp [quoteFlags, h]

theorem quoteFlags_bad {b : Nat} {rest : Bytes} (h : b % 64 ≠ 0) :
    quoteFlags (b :: rest) = Except.error (PErr.error ErrKind.tagBitsK) := by
  simp [quoteFlags, h]

theorem quoteFlags_ok_iff {input rest : Bytes} {fl : Bool × Bool} :
    quoteFlags input = Except.ok (rest, fl) ↔
      ∃ b, input = b :: rest ∧ b % 64 = 0 ∧ fl = (b.testBit 7, b.testBit 6) := by
  unfold quoteFlags
  cases input with
  | nil => simp
  | cons b bs =>
    by_cases hb : b % 64 = 0
    · simp only [hb, if_true]
      constructor
      · intro hz
        obtain ⟨h1, h2⟩ := Prod.mk.injEq .. ▸ Except.ok.inj hz
        exact ⟨b, by rw [h1], hb, h2.symm⟩
      · rintro ⟨b2, hcons, -, hfl⟩
        obtain ⟨hb2, hbs⟩ := List.cons.injEq .. ▸ hcons
        subst hb2; rw [hbs, hfl]
    · simp [hb]

theorem sale_condition_ok {b : Nat} {rest : Bytes} (h : b % 8 = 0) :
    sale_condition (b :: rest) =
      Except.ok (rest, SaleCondition.mk (b.testBit 7) (b.testBit 6) (b.testBit 5)
        (b.testBit 4) (b.testBit 3)) := by
  simp [sale_condition, h]

theorem sale_condition_bad {b : Nat} {rest : Bytes} (h : b % 8 ≠ 0) :
    sale_condition (b :: rest) = Except.error (PErr.error ErrKind.tagBitsK) := by
  simp [sale_condition, h]

theorem timestamp_append {l r : Bytes} (h : l.length = 8) :
    timestamp (l ++ r) = Except.ok (r, toI64 (leBytes l)) := by
  unfold timestamp
  rw [if_pos (by simp [h]), ← h, List.take_left, List.drop_left]

theorem price_append {l r : Bytes} (h : l.length = 8) :
    price (l ++ r) = Except.ok (r, (leBytes l : ℚ) / 10000) := by
  unfold price
  rw [if_pos (by simp [h]), ← h, List.take_left, List.drop_left]

theorem iex_string_append {w : Nat} {l r : Bytes} (h : l.length = w) :
    iex_string w (l ++ r) = Except.ok (r, bytesToString (dropTrailingSpaces l)) := by
  unfold iex_string
  rw [if_pos (by simp [← h]), ← h, List.take_left, List.drop_left]

theorem le_u32_append {l r : Bytes} (h : l.length = 4) :
    le_u32 (l ++ r) = Except.ok (r, leBytes l) := by
  unfold le_u32
  rw [if_pos (by simp [h]), ← h, List.take_left, List.drop_left]

theorem le_i64_append {l r : Bytes} (h : l.length = 8) :
    le_i64 (l ++ r) = Except.ok (r, toI64 (leBytes l)) := by
  unfold le_i64
  rw [if_pos (by simp [h]), ← h, List.take_left, List.drop_left]

theorem takeBytes_append {n : Nat} {l r : Bytes} (h : l.length = n) :
    takeBytes n (l ++ r) = Except.ok (r, l) := by
  unfold takeBytes
  rw [if_pos (by simp [← h]), ← h, List.take_left, List.drop_left]

/-! ### Message shape evaluation lemmas -/

theorem quote_update_eval {f : Nat} {ts sym bs bp ap asz rest : Bytes}
    (hf : f % 64 = 0) (hts : ts.length = 8) (hsym : sym.length = 8)
    (hbs : bs.length = 4) (hbp : bp.length = 8) (hap : ap.length = 8)
    (hasz : asz.length = 4) :
    quote_update (0x51 :: f :: (ts ++ (sym ++ (bs ++ (bp ++ (ap ++ (asz ++ rest))))))) =
      Except.ok (rest, QuoteUpdate.mk (!f.testBit 7)
        (if f.testBit 6 then MarketSession.outOfHours else MarketSession.regular)
        (toI64 (leBytes ts)) (bytesToString (dropTrailingSpaces sym))
        (leBytes bs) ((leBytes bp : ℚ) / 10000) (leBytes asz)
        ((leBytes ap : ℚ) / 10000)) := by
  unfold quote_update
  rw [pbind_ok tagByte_eq, pbind_ok (quoteFlags_ok hf), pbind_ok (timestamp_append hts),
      pbind_ok (iex_string_append hsym), pbind_ok (le_u32_append hbs),
      pbind_ok (price_append hbp), pbind_ok (price_append hap),
      pmap_ok (le_u32_append hasz)]

theorem priceSpec4_append {l r : Bytes} (h : l.length = 4) :
    priceSpec4 (l ++ r) = Except.ok (r, (leBytes l : ℚ) / 10000) := by
  unfold priceSpec4
  rw [if_pos (by simp [h]), ← h, List.take_left, List.drop_left]

theorem quoteUpdateSpecPrice4_eval {f : Nat} {ts sym bs bp ap asz rest : Bytes}
    (hf : f % 64 = 0) (hts : ts.length = 8) (hsym : sym.length = 8)
    (hbs : bs.length = 4) (hbp : bp.length = 4) (hap : ap.length = 4)
    (hasz : asz.length = 4) :
    quoteUpdateSpecPrice4 (0x51 :: f :: (ts ++ (sym ++ (bs ++ (bp ++ (ap ++ (asz ++ rest))))))) =
      Except.ok (rest, QuoteUpdate.mk (!f.testBit 7)
        (if f.testBit 6 then MarketSession.outOfHours else MarketSession.regular)
        (toI64 (leBytes ts)) (bytesToString (dropTrailingSpaces sym))
        (leBytes bs) ((leBytes bp : ℚ) / 10000) (leBytes asz)
        ((leBytes ap : ℚ) / 10000)) := by
  unfold quoteUpdateSpecPrice4
  rw [pbind_ok tagByte_eq, pbind_ok (quoteFlags_ok hf), pbind_ok (timestamp_append hts),
      pbind_ok (iex_string_append hsym), pbind_ok (le_u32_append hbs),
      pbind_ok (priceSpec4_append hbp), pbind_ok (priceSpec4_append hap),
      pmap_ok (le_u32_append hasz)]

theorem trade_report_eval {f : Nat} {ts sym sz px tid rest : Bytes}
    (hf : f % 8 = 0) (hts : ts.length = 8) (hsym : sym.length = 8)
    (hsz : sz.length = 4) (hpx : px.length = 8) (htid : tid.length = 8) :
    trade_report (0x54 :: f :: (ts ++ (sym ++ (sz ++ (px ++ (tid ++ rest)))))) =
      Except.ok (rest, TradeReport.mk
        (SaleCondition.mk (f.testBit 7) (f.testBit 6) (f.testBit 5) (f.testBit 4) (f.testBit 3))
        (toI64 (leBytes ts)) (bytesToString (dropTrailingSpaces sym))
        (leBytes sz) ((leBytes px : ℚ) / 10000) (toI64 (leBytes tid))) := by
  unfold trade_report
  rw [pbind_ok tagByte_eq, pbind_ok (sale_condition_ok hf), pbind_ok (timestamp_append hts),
      pbind_ok (iex_string_append hsym), pbind_ok (le_u32_append hsz),
      pbind_ok (price_append hpx), pmap_ok (le_i64_append htid)]

theorem dummyMessage_eval {t len : Nat} {body rest : Bytes} (h : body.length = len) :
    dummyMessage t len (t :: (body ++ rest)) = Except.ok (rest, ()) := by
  unfold dummyMessage
  rw [pbind_ok tagByte_eq, pmap_ok (takeBytes_append h)]

theorem system_event_eval {b : Nat} {et : SystemEventType} {ts rest : Bytes}
    (hb : systemEventSubtype (b :: (ts ++ rest)) = Except.ok (ts ++ rest, et))
    (hts : ts.length = 8) :
    system_event (0x53 :: b :: (ts ++ rest)) = Except.ok (rest, SystemEvent.mk et (toI64 (leBytes ts))) := by
  unfold system_event
  rw [pbind_ok tagByte_eq, pbind_ok hb, pmap_ok (timestamp_append hts)]

/-! ### Tag guard lemmas: each alternative fails with the tag-mismatch
error on any input that does not begin with its tag byte. -/

theorem altSystemEvent_guard {b : Nat} {rest : Bytes} (h : b ≠ 0x53) :
    altSystemEvent (b :: rest) = Except.error (PErr.error ErrKind.tagK) :=
  pmap_err (pbind_err (tagByte_ne h))

theorem altSecurityDirectory_guard {b : Nat} {rest : Bytes} (h : b ≠ 0x44) :
    altSecurityDirectory (b :: rest) = Except.error (PErr.error ErrKind.tagK) :=
  pmap_err (pbind_err (tagByte_ne h))

theorem altTradingStatus_guard {b : Nat} {rest : Bytes} (h : b ≠ 0x48) :
    altTradingStatus (b :: rest) = Except.error (PErr.error ErrKind.tagK) :=
  pmap_err (pbind_err (tagByte_ne h))

theorem altRetailLiquidityIndicator_guard {b : Nat} {rest : Bytes} (h : b ≠ 0x49) :
    altRetailLiquidityIndicator (b :: rest) = Except.error (PErr.error ErrKind.tagK) :=
  pmap_err (pbind_err (tagByte_ne h))

theorem altOperationalHaltStatus_guard {b : Nat} {rest : Bytes} (h : b ≠ 0x4f) :
    altOperationalHaltStatus (b :: rest) = Except.error (PErr.error ErrKind.tagK) :=
  pmap_err (pbind_err (tagByte_ne h))

theorem altShortSalePriceTestStatus_guard {b : Nat} {rest : Bytes} (h : b ≠ 0x50) :
    altShortSalePriceTestStatus (b :: rest) = Except.error (PErr.error ErrKind.tagK) :=
  pmap_err (pbind_err (tagByte_ne h))

theorem altQuoteUpdate_guard {b : Nat} {rest : Bytes} (h : b ≠ 0x51) :
    altQuoteUpdate (b :: rest) = Except.error (PErr.error ErrKind.tagK) :=
  pmap_err (pbind_err (tagByte_ne h))

theorem altTradeReport_guard {b : Nat} {rest : Bytes} (h : b ≠ 0x54) :
    altTradeReport (b :: rest) = Except.error (PErr.error ErrKind.tagK) :=
  pmap_err (pbind_err (tagByte_ne h))

theorem altOfficialPrice_guard {b : Nat} {rest : Bytes} (h : b ≠ 0x58) :
    altOfficialPrice (b :: rest) = Except.error (PErr.error ErrKind.tagK) :=
  pmap_err (pbind_err (tagByte_ne h))

theorem altTradeBreak_guard {b : Nat} {rest : Bytes} (h : b ≠ 0x42) :
    altTradeBreak (b :: rest) = Except.error (PErr.error ErrKind.tagK) :=
  pmap_err (pbind_err (tagByte_ne h))

theorem altAuctionInformation_guard {b : Nat} {rest : Bytes} (h : b ≠ 0x41) :
    altAuctionInformation (b :: rest) = Except.error (PErr.error ErrKind.tagK) :=
  pmap_err (pbind_err (tagByte_ne h))

theorem altSystemEvent_nil : altSystemEvent [] = Except.error (PErr.error ErrKind.tagK) :=
  pmap_err (pbind_err (tagByte_nil 0x53))

theorem altSecurityDirectory_nil : altSecurityDirectory [] = Except.error (PErr.error ErrKind.tagK) :=
  by
  simp [altSecurityDirectory, security_directory, dummyMessage, pmap, pbind, tagByte]

theorem altTradingStatus_nil : altTradingStatus [] = Except.error (PErr.error ErrKind.tagK) :=
  by
  simp [altTradingStatus, trading_status, dummyMessage, pmap, pbind, tagByte]

theorem altRetailLiquidityIndicator_nil :
    altRetailLiquidityIndicator [] = Except.error (PErr.error ErrKind.tagK) :=
  by
  simp [altRetailLiquidityIndicator, retail_liquidity_indicator, dummyMessage, pmap, pbind, tagByte]

theorem altOperationalHaltStatus_nil :
    altOperationalHaltStatus [] = Except.error (PErr.error ErrKind.tagK) :=
  by
  simp [altOperationalHaltStatus, operational_halt_status, dummyMessage, pmap, pbind, tagByte]

theorem altShortSalePriceTestStatus_nil :
    altShortSalePriceTestStatus [] = Except.error (PErr.error ErrKind.tagK) :=
  by
  simp [altShortSalePriceTestStatus, short_sale_price_test_status, dummyMessage, pmap, pbind, tagByte]

theorem altQuoteUpdate_nil : altQuoteUpdate [] = Except.error (PErr.error ErrKind.tagK) :=
  pmap_err (pbind_err (tagByte_nil 0x51))

theorem altTradeReport_nil : altTradeReport [] = Except.error (PErr.error ErrKind.tagK) :=
  pmap_err (pbind_err (tagByte_nil 0x54))

theorem altOfficialPrice_nil : altOfficialPrice [] = Except.error (PErr.error ErrKind.tagK) :=
  by
  simp [altOfficialPrice, official_price, dummyMessage, pmap, pbind, tagByte]

theorem altTradeBreak_nil : altTradeBreak [] = Except.error (PErr.error ErrKind.tagK) :=
  by
  simp [altTradeBreak, trade_break, dummyMessage, pmap, pbind, tagByte]

theorem altAuctionInformation_nil :
    altAuctionInformation [] = Except.error (PErr.error ErrKind.tagK) :=
  by
  simp [altAuctionInformation, auction_information, dummyMessage, pmap, pbind, tagByte]

/-! ### Fallthrough chains: evaluating the tail of the dispatcher when the
leading byte matches none of the tags of the remaining alternatives. -/

theorem tailFromTradeBreak {b : Nat} {rest : Bytes} (h10 : b ≠ 0x42) (h11 : b ≠ 0x41) :
    palt altTradeBreak altAuctionInformation (b :: rest) =
      Except.error (PErr.error ErrKind.tagK) := by
  rw [palt_fallthrough (altTradeBreak_guard h10)]
  exact altAuctionInformation_guard h11

theorem tailFromOfficialPrice {b : Nat} {rest : Bytes} (h9 : b ≠ 0x58) (h10 : b ≠ 0x42)
    (h11 : b ≠ 0x41) :
    palt altOfficialPrice (palt altTradeBreak altAuctionInformation) (b :: rest) =
      Except.error (PErr.error ErrKind.tagK) := by
  rw [palt_fallthrough (altOfficialPrice_guard h9)]
  exact tailFromTradeBreak h10 h11

theorem tailFromTradeReport {b : Nat} {rest : Bytes} (h8 : b ≠ 0x54) (h9 : b ≠ 0x58)
    (h10 : b ≠ 0x42) (h11 : b ≠ 0x41) :
    palt altTradeReport (palt altOfficialPrice (palt altTradeBreak altAuctionInformation))
      (b :: rest) = Except.error (PErr.error ErrKind.tagK) := by
  rw [palt_fallthrough (altTradeReport_guard h8)]
  exact tailFromOfficialPrice h9 h10 h11

theorem tailFromQuoteUpdate {b : Nat} {rest : Bytes} (h7 : b ≠ 0x51) (h8 : b ≠ 0x54)
    (h9 : b ≠ 0x58) (h10 : b ≠ 0x42) (h11 : b ≠ 0x41) :
    palt altQuoteUpdate (palt altTradeReport (palt altOfficialPrice
      (palt altTradeBreak altAuctionInformation))) (b :: rest) =
      Except.error (PErr.error ErrKind.tagK) := by
  rw [palt_fallthrough (altQuoteUpdate_guard h7)]
  exact tailFromTradeReport h8 h9 h10 h11

theorem tailFromShortSale {b : Nat} {rest : Bytes} (h6 : b ≠ 0x50) (h7 : b ≠ 0x51)
    (h8 : b ≠ 0x54) (h9 : b ≠ 0x58) (h10 : b ≠ 0x42) (h11 : b ≠ 0x41) :
    palt altShortSalePriceTestStatus (palt altQuoteUpdate (palt altTradeReport
      (palt altOfficialPrice (palt altTradeBreak altAuctionInformation)))) (b :: rest) =
      Except.error (PErr.error ErrKind.tagK) := by
  rw [palt_fallthrough (altShortSalePriceTestStatus_guard h6)]
  exact tailFromQuoteUpdate h7 h8 h9 h10 h11

theorem tailFromOperationalHalt {b : Nat} {rest : Bytes} (h5 : b ≠ 0x4f) (h6 : b ≠ 0x50)
    (h7 : b ≠ 0x51) (h8 : b ≠ 0x54) (h9 : b ≠ 0x58) (h10 : b ≠ 0x42) (h11 : b ≠ 0x41) :
    palt altOperationalHaltStatus (palt altShortSalePriceTestStatus (palt altQuoteUpdate
      (palt altTradeReport (palt altOfficialPrice (palt altTradeBreak
      altAuctionInformation))))) (b :: rest) = Except.error (PErr.error ErrKind.tagK) := by
  rw [palt_fallthrough (altOperationalHaltStatus_guard h5)]
  exact tailFromShortSale h6 h7 h8 h9 h10 h11

theorem tailFromRetail {b : Nat} {rest : Bytes} (h4 : b ≠ 0x49) (h5 : b ≠ 0x4f)
    (h6 : b ≠ 0x50) (h7 : b ≠ 0x51) (h8 : b ≠ 0x54) (h9 : b ≠ 0x58) (h10 : b ≠ 0x42)
    (h11 : b ≠ 0x41) :
    palt altRetailLiquidityIndicator (palt altOperationalHaltStatus
      (palt altShortSalePriceTestStatus (palt altQuoteUpdate (palt altTradeReport
      (palt altOfficialPrice (palt altTradeBreak altAuctionInformation)))))) (b :: rest) =
      Except.error (PErr.error ErrKind.tagK) := by
  rw [palt_fallthrough (altRetailLiquidityIndicator_guard h4)]
  exact tailFromOperationalHalt h5 h6 h7 h8 h9 h10 h11

theorem tailFromTradingStatus {b : Nat} {rest : Bytes} (h3 : b ≠ 0x48) (h4 : b ≠ 0x49)
    (h5 : b ≠ 0x4f) (h6 : b ≠ 0x50) (h7 : b ≠ 0x51) (h8 : b ≠ 0x54) (h9 : b ≠ 0x58)
    (h10 : b ≠ 0x42) (h11 : b ≠ 0x41) :
    palt altTradingStatus (palt altRetailLiquidityIndicator (palt altOperationalHaltStatus
      (palt altShortSalePriceTestStatus (palt altQuoteUpdate (palt altTradeReport
      (palt altOfficialPrice (palt altTradeBreak altAuctionInformation))))))) (b :: rest) =
      Except.error (PErr.error ErrKind.tagK) := by
  rw [palt_fallthrough (altTradingStatus_guard h3)]
  exact tailFromRetail h4 h5 h6 h7 h8 h9 h10 h11

theorem tailFromSecurityDirectory {b : Nat} {rest : Bytes} (h2 : b ≠ 0x44) (h3 : b ≠ 0x48)
    (h4 : b ≠ 0x49) (h5 : b ≠ 0x4f) (h6 : b ≠ 0x50) (h7 : b ≠ 0x51) (h8 : b ≠ 0x54)
    (h9 : b ≠ 0x58) (h10 : b ≠ 0x42) (h11 : b ≠ 0x41) :
    palt altSecurityDirectory (palt altTradingStatus (palt altRetailLiquidityIndicator
      (palt altOperationalHaltStatus (palt altShortSalePriceTestStatus (palt altQuoteUpdate
      (palt altTradeReport (palt altOfficialPrice (palt altTradeBreak
      altAuctionInformation)))))))) (b :: rest) = Except.error (PErr.error ErrKind.tagK) := by
  rw [palt_fallthrough (altSecurityDirectory_guard h2)]
  exact tailFromTradingStatus h3 h4 h5 h6 h7 h8 h9 h10 h11

theorem tops_mismatch {b : Nat} {rest : Bytes} (h1 : b ≠ 0x53) (h2 : b ≠ 0x44)
    (h3 : b ≠ 0x48) (h4 : b ≠ 0x49) (h5 : b ≠ 0x4f) (h6 : b ≠ 0x50) (h7 : b ≠ 0x51)
    (h8 : b ≠ 0x54) (h9 : b ≠ 0x58) (h10 : b ≠ 0x42) (h11 : b ≠ 0x41) :
    tops_1_6_message (b :: rest) = Except.error (PErr.error ErrKind.tagK) := by
  unfold tops_1_6_message
  rw [palt_fallthrough (altSystemEvent_guard h1)]
  exact tailFromSecurityDirectory h2 h3 h4 h5 h6 h7 h8 h9 h10 h11

/-! ### Consumption accounting -/

/-- A parser consumes exactly n bytes: on success the remainder is the
input with its first n bytes dropped. -/
def Consumes {α : Type} (p : Bytes → PResult α) (n : Nat) : Prop :=
  ∀ input rest a, p input = Except.ok (rest, a) → n ≤ input.length ∧ rest = input.drop n

theorem consumes_pbind {α β : Type} {p : Bytes → PResult α} {f : α → Bytes → PResult β}
    {m n : Nat} (hp : Consumes p m) (hf : ∀ a, Consumes (f a) n) :
    Consumes (pbind p f) (m + n) := by
  intro input rest b h
  unfold pbind at h
  cases hx : p input with
  | error e => rw [hx] at h; cases h
  | ok w =>
    obtain ⟨mid, a⟩ := w
    rw [hx] at h
    obtain ⟨hm, hmid⟩ := hp input mid a hx
    obtain ⟨hn, hrest⟩ := hf a mid rest b h
    subst hmid
    constructor
    · have := List.length_drop m input
      omega
    · rw [hrest, List.drop_drop]

theorem consumes_pmap {α β : Type} {p : Bytes → PResult α} {f : α → β} {n : Nat}
    (hp : Consumes p n) : Consumes (pmap p f) n := by
  intro input rest b h
  rw [pmap_ok_iff] at h
  obtain ⟨mid, a, hx, hz⟩ := h
  obtain ⟨h1, h2⟩ := Prod.mk.injEq .. ▸ hz
  obtain ⟨hn, hmid⟩ := hp input mid a hx
  exact ⟨hn, h1 ▸ hmid⟩

theorem consumes_tagByte {t : Nat} : Consumes (tagByte t) 1 := by
  intro input rest a h
  rw [tagByte_ok_iff] at h
  rw [h]
  simp

theorem consumes_quoteFlags : Consumes quoteFlags 1 := by
  intro input rest a h
  cases input with
  | nil => cases h
  | cons b bs =>
    by_cases hb : b % 64 = 0
    · rw [quoteFlags_ok hb] at h
      obtain ⟨h1, -⟩ := Prod.mk.injEq .. ▸ Except.ok.inj h
      simp [← h1]
    · rw [quoteFlags_bad hb] at h; cases h

theorem consumes_sale_condition : Consumes sale_condition 1 := by
  intro input rest a h
  cases input with
  | nil => cases h
  | cons b bs =>
    by_cases hb : b % 8 = 0
    · rw [sale_condition_ok hb] at h
      obtain ⟨h1, -⟩ := Prod.mk.injEq .. ▸ Except.ok.inj h
      simp [← h1]
    · rw [sale_condition_bad hb] at h; cases h

theorem consumes_systemEventSubtype : Consumes systemEventSubtype 1 := by
  intro input rest a h
  cases input with
  | nil => cases h
  | cons b bs =>
    simp only [systemEventSubtype] at h
    repeat' split at h
    all_goals simp_all

theorem consumes_timestamp : Consumes timestamp 8 := by
  intro input rest a h
  unfold timestamp at h
  split at h
  · obtain ⟨h1, -⟩ := Prod.mk.injEq .. ▸ Except.ok.inj h
    exact ⟨by assumption, h1.symm⟩
  · cases h

theorem consumes_price : Consumes price 8 := by
  intro input rest a h
  unfold price at h
  split at h
  · obtain ⟨h1, -⟩ := Prod.mk.injEq .. ▸ Except.ok.inj h
    exact ⟨by assumption, h1.symm⟩
  · cases h

theorem consumes_priceSpec4 : Consumes priceSpec4 4 := by
  intro input rest a h
  unfold priceSpec4 at h
  split at h
  · obtain ⟨h1, -⟩ := Prod.mk.injEq .. ▸ Except.ok.inj h
    exact ⟨by assumption, h1.symm⟩
  · cases h

theorem consumes_iex_string {w : Nat} : Consumes (iex_string w) w := by
  intro input rest a h
  unfold iex_string at h
  split at h
  · obtain ⟨h1, -⟩ := Prod.mk.injEq .. ▸ Except.ok.inj h
    exact ⟨by assumption, h1.symm⟩
  · cases h

theorem consumes_le_u32 : Consumes le_u32 4 := by
  intro input rest a h
  unfold le_u32 at h
  split at h
  · obtain ⟨h1, -⟩ := Prod.mk.injEq .. ▸ Except.ok.inj h
    exact ⟨by assumption, h1.symm⟩
  · cases h

theorem consumes_le_i64 : Consumes le_i64 8 := by
  intro input rest a h
  unfold le_i64 at h
  split at h
  · obtain ⟨h1, -⟩ := Prod.mk.injEq .. ▸ Except.ok.inj h
    exact ⟨by assumption, h1.symm⟩
  · cases h

theorem consumes_takeBytes {n : Nat} : Consumes (takeBytes n) n := by
  intro input rest a h
  unfold takeBytes at h
  split at h
  · obtain ⟨h1, -⟩ := Prod.mk.injEq .. ▸ Except.ok.inj h
    exact ⟨by assumption, h1.symm⟩
  · cases h

theorem consumes_quote_update : Consumes quote_update 42 := by
  have h : Consumes quote_update (1 + (1 + (8 + (8 + (4 + (8 + (8 + 4))))))) := by
    unfold quote_update
    exact consumes_pbind consumes_tagByte (fun _ =>
      consumes_pbind consumes_quoteFlags (fun _ =>
      consumes_pbind consumes_timestamp (fun _ =>
      consumes_pbind consumes_iex_string (fun _ =>
      consumes_pbind consumes_le_u32 (fun _ =>
      consumes_pbind consumes_price (fun _ =>
      consumes_pbind consumes_price (fun _ =>
      consumes_pmap consumes_le_u32)))))))
  simpa using h

theorem consumes_trade_report : Consumes trade_report 38 := by
  have h : Consumes trade_report (1 + (1 + (8 + (8 + (4 + (8 + 8)))))) := by
    unfold trade_report
    exact consumes_pbind consumes_tagByte (fun _ =>
      consumes_pbind consumes_sale_condition (fun _ =>
      consumes_pbind consumes_timestamp (fun _ =>
      consumes_pbind consumes_iex_string (fun _ =>
      consumes_pbind consumes_le_u32 (fun _ =>
      consumes_pbind consumes_price (fun _ =>
      consumes_pmap consumes_le_i64))))))
  simpa using h

theorem consumes_system_event : Consumes system_event 10 := by
  have h : Consumes system_event (1 + (1 + 8)) := by
    unfold system_event
    exact consumes_pbind consumes_tagByte (fun _ =>
      consumes_pbind consumes_systemEventSubtype (fun _ =>
      consumes_pmap consumes_timestamp))
  simpa using h

theorem consumes_dummyMessage {t len : Nat} : Consumes (dummyMessage t len) (1 + len) := by
  unfold dummyMessage
  exact consumes_pbind consumes_tagByte (fun _ => consumes_pmap consumes_takeBytes)

/-! ### Dispatcher success lemmas: when the alternative matching the
leading byte succeeds, the dispatcher returns its result. -/

theorem tops_ok_systemEvent {rest : Bytes} {z : Bytes × Tops1_6Message}
    (h : altSystemEvent (0x53 :: rest) = Except.ok z) :
    tops_1_6_message (0x53 :: rest) = Except.ok z := by
  unfold tops_1_6_message
  exact palt_ok h

theorem tops_ok_securityDirectory {rest : Bytes} {z : Bytes × Tops1_6Message}
    (h : altSecurityDirectory (0x44 :: rest) = Except.ok z) :
    tops_1_6_message (0x44 :: rest) = Except.ok z := by
  unfold tops_1_6_message
  rw [palt_fallthrough (altSystemEvent_guard (by decide))]
  exact palt_ok h

theorem tops_ok_tradingStatus {rest : Bytes} {z : Bytes × Tops1_6Message}
    (h : altTradingStatus (0x48 :: rest) = Except.ok z) :
    tops_1_6_message (0x48 :: rest) = Except.ok z := by
  unfold tops_1_6_message
  rw [palt_fallthrough (altSystemEvent_guard (by decide)),
      palt_fallthrough (altSecurityDirectory_guard (by decide))]
  exact palt_ok h

theorem tops_ok_retail {rest : Bytes} {z : Bytes × Tops1_6Message}
    (h : altRetailLiquidityIndicator (0x49 :: rest) = Except.ok z) :
    tops_1_6_message (0x49 :: rest) = Except.ok z := by
  unfold tops_1_6_message
  rw [palt_fallthrough (altSystemEvent_guard (by decide)),
      palt_fallthrough (altSecurityDirectory_guard (by decide)),
      palt_fallthrough (altTradingStatus_guard (by decide))]
  exact palt_ok h

theorem tops_ok_operationalHalt {rest : Bytes} {z : Bytes × Tops1_6Message}
    (h : altOperationalHaltStatus (0x4f :: rest) = Except.ok z) :
    tops_1_6_message (0x4f :: rest) = Except.ok z := by
  unfold tops_1_6_message
  rw [palt_fallthrough (altSystemEvent_guard (by decide)),
      palt_fallthrough (altSecurityDirectory_guard (by decide)),
      palt_fallthrough (altTradingStatus_guard (by decide)),
      palt_fallthrough (altRetailLiquidityIndicator_guard (by decide))]
  exact palt_ok h

theorem tops_ok_shortSale {rest : Bytes} {z : Bytes × Tops1_6Message}
    (h : altShortSalePriceTestStatus (0x50 :: rest) = Except.ok z) :
    tops_1_6_message (0x50 :: rest) = Except.ok z := by
  unfold tops_1_6_message
  rw [palt_fallthrough (altSystemEvent_guard (by decide)),
      palt_fallthrough (altSecurityDirectory_guard (by decide)),
      palt_fallthrough (altTradingStatus_guard (by decide)),
      palt_fallthrough (altRetailLiquidityIndicator_guard (by decide)),
      palt_fallthrough (altOperationalHaltStatus_guard (by decide))]
  exact palt_ok h

theorem tops_ok_quoteUpdate {rest : Bytes} {z : Bytes × Tops1_6Message}
    (h : altQuoteUpdate (0x51 :: rest) = Except.ok z) :
    tops_1_6_message (0x51 :: rest) = Except.ok z := by
  unfold tops_1_6_message
  rw [palt_fallthrough (altSystemEvent_guard (by decide)),
      palt_fallthrough (altSecurityDirectory_guard (by decide)),
      palt_fallthrough (altTradingStatus_guard (by decide)),
      palt_fallthrough (altRetailLiquidityIndicator_guard (by decide)),
      palt_fallthrough (altOperationalHaltStatus_guard (by decide)),
      palt_fallthrough (altShortSalePriceTestStatus_guard (by decide))]
  exact palt_ok h

theorem tops_ok_tradeReport {rest : Bytes} {z : Bytes × Tops1_6Message}
    (h : altTradeReport (0x54 :: rest) = Except.ok z) :
    tops_1_6_message (0x54 :: rest) = Except.ok z := by
  unfold tops_1_6_message
  rw [palt_fallthrough (altSystemEvent_guard (by decide)),
      palt_fallthrough (altSecurityDirectory_guard (by decide)),
      palt_fallthrough (altTradingStatus_guard (by decide)),
      palt_fallthrough (altRetailLiquidityIndicator_guard (by decide)),
      palt_fallthrough (altOperationalHaltStatus_guard (by decide)),
      palt_fallthrough (altShortSalePriceTestStatus_guard (by decide)),
      palt_fallthrough (altQuoteUpdate_guard (by decide))]
  exact palt_ok h

theorem tops_ok_officialPrice {rest : Bytes} {z : Bytes × Tops1_6Message}
    (h : altOfficialPrice (0x58 :: rest) = Except.ok z) :
    tops_1_6_message (0x58 :: rest) = Except.ok z := by
  unfold tops_1_6_message
  rw [palt_fallthrough (altSystemEvent_guard (by decide)),
      palt_fallthrough (altSecurityDirectory_guard (by decide)),
      palt_fallthrough (altTradingStatus_guard (by decide)),
      palt_fallthrough (altRetailLiquidityIndicator_guard (by decide)),
      palt_fallthrough (altOperationalHaltStatus_guard (by decide)),
      palt_fallthrough (altShortSalePriceTestStatus_guard (by decide)),
      palt_fallthrough (altQuoteUpdate_guard (by decide)),
      palt_fallthrough (altTradeReport_guard (by decide))]
  exact palt_ok h

theorem tops_ok_tradeBreak {rest : Bytes} {z : Bytes × Tops1_6Message}
    (h : altTradeBreak (0x42 :: rest) = Except.ok z) :
    tops_1_6_message (0x42 :: rest) = Except.ok z := by
  unfold tops_1_6_message
  rw [palt_fallthrough (altSystemEvent_guard (by decide)),
      palt_fallthrough (altSecurityDirectory_guard (by decide)),
      palt_fallthrough (altTradingStatus_guard (by decide)),
      palt_fallthrough (altRetailLiquidityIndicator_guard (by decide)),
      palt_fallthrough (altOperationalHaltStatus_guard (by decide)),
      palt_fallthrough (altShortSalePriceTestStatus_guard (by decide)),
      palt_fallthrough (altQuoteUpdate_guard (by decide)),
      palt_fallthrough (altTradeReport_guard (by decide)),
      palt_fallthrough (altOfficialPrice_guard (by decide))]
  exact palt_ok h

theorem tops_ok_auction {rest : Bytes} {z : Bytes × Tops1_6Message}
    (h : altAuctionInformation (0x41 :: rest) = Except.ok z) :
    tops_1_6_message (0x41 :: rest) = Except.ok z := by
  unfold tops_1_6_message
  rw [palt_fallthrough (altSystemEvent_guard (by decide)),
      palt_fallthrough (altSecurityDirectory_guard (by decide)),
      palt_fallthrough (altTradingStatus_guard (by decide)),
      palt_fallthrough (altRetailLiquidityIndicator_guard (by decide)),
      palt_fallthrough (altOperationalHaltStatus_guard (by decide)),
      palt_fallthrough (altShortSalePriceTestStatus_guard (by decide)),
      palt_fallthrough (altQuoteUpdate_guard (by decide)),
      palt_fallthrough (altTradeReport_guard (by decide)),
      palt_fallthrough (altOfficialPrice_guard (by decide)),
      palt_fallthrough (altTradeBreak_guard (by decide))]
  exact h

/-! ### Reserved-bit arithmetic -/

set_option maxRecDepth 4000 in
theorem reserved6_nonzero {f : Nat} (hf : f < 256) {i : Nat} (hi : i < 6)
    (hbit : f.testBit i = true) : f % 64 ≠ 0 := by
  have hd : ∀ g < 256, ∀ j < 6, g.testBit j = true → g % 64 ≠ 0 := by decide
  exact hd f hf i hi hbit

set_option maxRecDepth 4000 in
theorem reserved3_nonzero {f : Nat} (hf : f < 256) {i : Nat} (hi : i < 3)
    (hbit : f.testBit i = true) : f % 8 ≠ 0 := by
  have hd : ∀ g < 256, ∀ j < 3, g.testBit j = true → g % 8 ≠ 0 := by decide
  exact hd f hf i hi hbit

/-! ### Reserved-bit rejection -/

theorem quote_update_reserved_reject {f : Nat} {rest : Bytes} (hf : f % 64 ≠ 0) :
    quote_update (0x51 :: f :: rest) = Except.error (PErr.error ErrKind.tagBitsK) := by
  unfold quote_update
  rw [pbind_ok tagByte_eq]
  exact pbind_err (quoteFlags_bad hf)

theorem trade_report_reserved_reject {f : Nat} {rest : Bytes} (hf : f % 8 ≠ 0) :
    trade_report (0x54 :: f :: rest) = Except.error (PErr.error ErrKind.tagBitsK) := by
  unfold trade_report
  rw [pbind_ok tagByte_eq]
  exact pbind_err (sale_condition_bad hf)

theorem altQuoteUpdate_reserved {f : Nat} {rest : Bytes} (hf : f % 64 ≠ 0) :
    altQuoteUpdate (0x51 :: f :: rest) = Except.error (PErr.error ErrKind.tagBitsK) :=
  pmap_err (quote_update_reserved_reject hf)

theorem altTradeReport_reserved {f : Nat} {rest : Bytes} (hf : f % 8 ≠ 0) :
    altTradeReport (0x54 :: f :: rest) = Except.error (PErr.error ErrKind.tagBitsK) :=
  pmap_err (trade_report_reserved_reject hf)

theorem tops_reserved_quote_reject {f : Nat} {rest : Bytes} (hf : f % 64 ≠ 0) :
    tops_1_6_message (0x51 :: f :: rest) = Except.error (PErr.error ErrKind.tagK) := by
  unfold tops_1_6_message
  rw [palt_fallthrough (altSystemEvent_guard (by decide)),
      palt_fallthrough (altSecurityDirectory_guard (by decide)),
      palt_fallthrough (altTradingStatus_guard (by decide)),
      palt_fallthrough (altRetailLiquidityIndicator_guard (by decide)),
      palt_fallthrough (altOperationalHaltStatus_guard (by decide)),
      palt_fallthrough (altShortSalePriceTestStatus_guard (by decide)),
      palt_fallthrough (altQuoteUpdate_reserved hf)]
  exact tailFromTradeReport (by decide) (by decide) (by decide) (by decide)

theorem tops_reserved_trade_reject {f : Nat} {rest : Bytes} (hf : f % 8 ≠ 0) :
    tops_1_6_message (0x54 :: f :: rest) = Except.error (PErr.error ErrKind.tagK) := by
  unfold tops_1_6_message
  rw [palt_fallthrough (altSystemEvent_guard (by decide)),
      palt_fallthrough (altSecurityDirectory_guard (by decide)),
      palt_fallthrough (altTradingStatus_guard (by decide)),
      palt_fallthrough (altRetailLiquidityIndicator_guard (by decide)),
      palt_fallthrough (altOperationalHaltStatus_guard (by decide)),
      palt_fallthrough (altShortSalePriceTestStatus_guard (by decide)),
      palt_fallthrough (altQuoteUpdate_guard (by decide)),
      palt_fallthrough (altTradeReport_reserved hf)]
  exact tailFromOfficialPrice (by decide) (by decide) (by decide)

/-! ### Inversion of the quote update decoder -/

theorem quote_update_inv {input rest : Bytes} {q : QuoteUpdate}
    (h : quote_update input = Except.ok (rest, q)) :
    ∃ f tl, input = 0x51 :: f :: tl ∧ f % 64 = 0 ∧
      q.available = !f.testBit 7 ∧
      q.market_session =
        (if f.testBit 6 then MarketSession.outOfHours else MarketSession.regular) := by
  unfold quote_update at h
  rw [pbind_ok_iff] at h
  obtain ⟨r1, u, htag, h⟩ := h
  rw [tagByte_ok_iff] at htag
  rw [pbind_ok_iff] at h
  obtain ⟨r2, fl, hfl, h⟩ := h
  rw [quoteFlags_ok_iff] at hfl
  obtain ⟨f, hcons, hf64, hflv⟩ := hfl
  rw [pbind_ok_iff] at h
  obtain ⟨r3, ts, -, h⟩ := h
  rw [pbind_ok_iff] at h
  obtain ⟨r4, sym, -, h⟩ := h
  rw [pbind_ok_iff] at h
  obtain ⟨r5, bsz, -, h⟩ := h
  rw [pbind_ok_iff] at h
  obtain ⟨r6, bpx, -, h⟩ := h
  rw [pbind_ok_iff] at h
  obtain ⟨r7, apx, -, h⟩ := h
  rw [pmap_ok_iff] at h
  obtain ⟨r8, asz, -, hq⟩ := h
  obtain ⟨hrest, hqq⟩ := Prod.mk.injEq .. ▸ hq
  refine ⟨f, r2, ?_, hf64, ?_, ?_⟩
  · rw [htag, hcons]
  · rw [hqq, hflv]
  · rw [hqq, hflv]

/-! ### The dispatcher as a tagged list of alternatives -/

theorem altList_all_err {α : Type} {l : List (Bytes → PResult α)} {input : Bytes}
    (h : ∀ p ∈ l, p input = Except.error (PErr.error ErrKind.tagK)) :
    altList l input = Except.error (PErr.error ErrKind.tagK) := by
  induction l with
  | nil => rfl
  | cons p ps ih =>
    have hp := h p (List.mem_cons_self p ps)
    simp only [altList, hp]
    exact ih (fun x hx => h x (List.mem_cons_of_mem p hx))

theorem dispatch_guard_cons {e : Nat × (Bytes → PResult Tops1_6Message)}
    (he : e ∈ dispatchTable) {b : Nat} {rest : Bytes} (hb : b ≠ e.1) :
    e.2 (b :: rest) = Except.error (PErr.error ErrKind.tagK) := by
  fin_cases he <;>
    first
    | exact altSystemEvent_guard hb
    | exact altSecurityDirectory_guard hb
    | exact altTradingStatus_guard hb
    | exact altRetailLiquidityIndicator_guard hb
    | exact altOperationalHaltStatus_guard hb
    | exact altShortSalePriceTestStatus_guard hb
    | exact altQuoteUpdate_guard hb
    | exact altTradeReport_guard hb
    | exact altOfficialPrice_guard hb
    | exact altTradeBreak_guard hb
    | exact altAuctionInformation_guard hb

theorem dispatch_guard_nil {e : Nat × (Bytes → PResult Tops1_6Message)}
    (he : e ∈ dispatchTable) : e.2 [] = Except.error (PErr.error ErrKind.tagK) := by
  fin_cases he <;> rfl

theorem altList_nil_input {T : List (Nat × (Bytes → PResult Tops1_6Message))}
    (hT : ∀ e ∈ T, e ∈ dispatchTable) :
    altList (T.map Prod.snd) [] = Except.error (PErr.error ErrKind.tagK) := by
  apply altList_all_err
  intro p hp
  rw [List.mem_map] at hp
  obtain ⟨e, he, hpe⟩ := hp
  rw [← hpe]
  exact dispatch_guard_nil (hT e he)

theorem altList_mismatch {T : List (Nat × (Bytes → PResult Tops1_6Message))}
    (hT : ∀ e ∈ T, e ∈ dispatchTable) {b : Nat} {rest : Bytes}
    (hb : ∀ e ∈ T, b ≠ e.1) :
    altList (T.map Prod.snd) (b :: rest) = Except.error (PErr.error ErrKind.tagK) := by
  apply altList_all_err
  intro p hp
  rw [List.mem_map] at hp
  obtain ⟨e, he, hpe⟩ := hp
  rw [← hpe]
  exact dispatch_guard_cons (hT e he) (hb e he)

/-- In a list of tagged alternatives drawn from the dispatch table with
pairwise distinct tags, the outcome on an input whose head byte is the
tag of member (b, p) is decided by p alone, whatever the order: the
alternation succeeds with exactly the successes of p and is incomplete exactly
when p is. -/
theorem altList_match {T : List (Nat × (Bytes → PResult Tops1_6Message))}
    (hT : ∀ e ∈ T, e ∈ dispatchTable) (hnd : (T.map Prod.fst).Nodup)
    {b : Nat} {p : Bytes → PResult Tops1_6Message} (hmem : (b, p) ∈ T) (rest : Bytes) :
    (∀ z, altList (T.map Prod.snd) (b :: rest) = Except.ok z ↔
      p (b :: rest) = Except.ok z) ∧
    (altList (T.map Prod.snd) (b :: rest) = Except.error PErr.incomplete ↔
      p (b :: rest) = Except.error PErr.incomplete) := by
  induction T with
  | nil => cases hmem
  | cons e T ih =>
    obtain ⟨t, q⟩ := e
    rw [List.map_cons] at hnd
    rw [List.nodup_cons] at hnd
    rcases List.mem_cons.mp hmem with heq | hmemT
    · obtain ⟨hb, hq⟩ := Prod.mk.injEq .. ▸ heq
      subst hb
      subst hq
      have hTtail : ∀ x ∈ T, x.1 ≠ b := by
        intro x hx hxb
        exact hnd.1 (List.mem_map.mpr ⟨x, hx, hxb⟩)
      cases hp : p (b :: rest) with
      | ok w =>
        refine ⟨fun z => ?_, ?_⟩ <;> (rw [List.map_cons]; simp only [altList, hp]) <;> simp
      | error e2 =>
        cases e2 with
        | incomplete =>
          refine ⟨fun z => ?_, ?_⟩ <;> (rw [List.map_cons]; simp only [altList, hp]) <;> simp
        | error k =>
          have hfall : altList (T.map Prod.snd) (b :: rest) =
              Except.error (PErr.error ErrKind.tagK) :=
            altList_mismatch (fun x hx => hT x (List.mem_cons_of_mem _ hx))
              (fun x hx => fun hbx => hTtail x hx hbx.symm)
          constructor
          · intro z
            rw [List.map_cons]
            simp only [altList, hp, hfall]
            constructor
            · intro hcon; cases hcon
            · intro hcon; cases hcon
          · rw [List.map_cons]
            simp only [altList, hp, hfall]
            constructor
            · intro hcon; cases hcon
            · intro hcon; cases hcon
    · have hbt : b ≠ t := by
        intro hb
        exact hnd.1 (List.mem_map.mpr ⟨(b, p), hmemT, by rw [hb]⟩)
      have hq : q (b :: rest) = Except.error (PErr.error ErrKind.tagK) :=
        dispatch_guard_cons (hT (t, q) (List.mem_cons_self _ _)) hbt
      have htail := ih (fun x hx => hT x (List.mem_cons_of_mem _ hx)) hnd.2 hmemT
      rw [List.map_cons]
      constructor
      · intro z
        simp only [altList, hq]
        exact htail.1 z
      · simp only [altList, hq]
        exact htail.2

/-- The nested alt of the source dispatcher agrees with the list form of
the same alternatives on every success. -/
theorem palt_ok_congr {α : Type} (p : Bytes → PResult α) {q q2 : Bytes → PResult α}
    {input : Bytes} (h : ∀ z, q input = Except.ok z ↔ q2 input = Except.ok z) :
    ∀ z, palt p q input = Except.ok z ↔ palt p q2 input = Except.ok z := by
  intro z
  unfold palt
  cases hp : p input with
  | ok w => exact Iff.rfl
  | error e =>
    cases e with
    | incomplete => exact Iff.rfl
    | error k => exact h z

theorem altList_last_ok {α : Type} (p : Bytes → PResult α) (input : Bytes) :
    ∀ z, p input = Except.ok z ↔ altList [p] input = Except.ok z := by
  intro z
  simp only [altList]
  cases hp : p input with
  | ok w => exact Iff.rfl
  | error e =>
    cases e with
    | incomplete => exact Iff.rfl
    | error k =>
      constructor
      · intro hcon; cases hcon
      · intro hcon; cases hcon

theorem tops_ok_iff_table (input : Bytes) (z : Bytes × Tops1_6Message) :
    tops_1_6_message input = Except.ok z ↔
      altList (dispatchTable.map Prod.snd) input = Except.ok z := by
  have h11 := altList_last_ok altAuctionInformation input
  have h10 := palt_ok_congr altTradeBreak h11
  have h9 := palt_ok_congr altOfficialPrice h10
  have h8 := palt_ok_congr altTradeReport h9
  have h7 := palt_ok_congr altQuoteUpdate h8
  have h6 := palt_ok_congr altShortSalePriceTestStatus h7
  have h5 := palt_ok_congr altOperationalHaltStatus h6
  have h4 := palt_ok_congr altRetailLiquidityIndicator h5
  have h3 := palt_ok_congr altTradingStatus h4
  have h2 := palt_ok_congr altSecurityDirectory h3
  have h1 := palt_ok_congr altSystemEvent h2
  exact h1 z

/-! ### Reference vector evaluations -/

/-- The 10-byte SystemEvent reference vector from the repository tests. -/
def sysVec : Bytes := [0x53, 0x45, 0x00, 0xA0, 0x99, 0x97, 0xE9, 0x3D, 0xB6, 0x14]

theorem quote_update_quoteVec :
    quote_update quoteVec =
      Except.ok ([], QuoteUpdate.mk true MarketSession.regular 1471980632572715948 "ZIEXT"
        9700 ((9905 : ℚ) / 100) 1000 ((9907 : ℚ) / 100)) := by
  have h := @quote_update_eval 0x00
    [0xAC, 0x63, 0xC0, 0x20, 0x96, 0x86, 0x6D, 0x14]
    [0x5A, 0x49, 0x45, 0x58, 0x54, 0x20, 0x20, 0x20]
    [0xE4, 0x25, 0x00, 0x00]
    [0x24, 0x1D, 0x0F, 0x00, 0x00, 0x00, 0x00, 0x00]
    [0xEC, 0x1D, 0x0F, 0x00, 0x00, 0x00, 0x00, 0x00]
    [0xE8, 0x03, 0x00, 0x00] [] rfl rfl rfl rfl rfl rfl rfl
  rw [show quoteVec = 0x51 :: 0x00 ::
    ([0xAC, 0x63, 0xC0, 0x20, 0x96, 0x86, 0x6D, 0x14] ++
    ([0x5A, 0x49, 0x45, 0x58, 0x54, 0x20, 0x20, 0x20] ++
    ([0xE4, 0x25, 0x00, 0x00] ++
    ([0x24, 0x1D, 0x0F, 0x00, 0x00, 0x00, 0x00, 0x00] ++
    ([0xEC, 0x1D, 0x0F, 0x00, 0x00, 0x00, 0x00, 0x00] ++
    ([0xE8, 0x03, 0x00, 0x00] ++ ([] : Bytes))))))) from rfl, h]
  norm_num [leBytes, toI64, bytesToString, dropTrailingSpaces]

theorem quoteUpdateSpecPrice4_quoteVec :
    quoteUpdateSpecPrice4 quoteVec =
      Except.ok ([0x00, 0x00, 0x00, 0x00, 0xE8, 0x03, 0x00, 0x00],
        QuoteUpdate.mk true MarketSession.regular 1471980632572715948 "ZIEXT"
          9700 ((9905 : ℚ) / 100) 990700 0) := by
  have h := @quoteUpdateSpecPrice4_eval 0x00
    [0xAC, 0x63, 0xC0, 0x20, 0x96, 0x86, 0x6D, 0x14]
    [0x5A, 0x49, 0x45, 0x58, 0x54, 0x20, 0x20, 0x20]
    [0xE4, 0x25, 0x00, 0x00]
    [0x24, 0x1D, 0x0F, 0x00]
    [0x00, 0x00, 0x00, 0x00]
    [0xEC, 0x1D, 0x0F, 0x00]
    [0x00, 0x00, 0x00, 0x00, 0xE8, 0x03, 0x00, 0x00] rfl rfl rfl rfl rfl rfl rfl
  rw [show quoteVec = 0x51 :: 0x00 ::
    ([0xAC, 0x63, 0xC0, 0x20, 0x96, 0x86, 0x6D, 0x14] ++
    ([0x5A, 0x49, 0x45, 0x58, 0x54, 0x20, 0x20, 0x20] ++
    ([0xE4, 0x25, 0x00, 0x00] ++
    ([0x24, 0x1D, 0x0F, 0x00] ++
    ([0x00, 0x00, 0x00, 0x00] ++
    ([0xEC, 0x1D, 0x0F, 0x00] ++
    ([0x00, 0x00, 0x00, 0x00, 0xE8, 0x03, 0x00, 0x00] : Bytes))))))) from rfl, h]
  norm_num [leBytes, toI64, bytesToString, dropTrailingSpaces]

theorem tops_quoteVec :
    tops_1_6_message quoteVec =
      Except.ok ([], Tops1_6Message.quoteUpdate
        (QuoteUpdate.mk true MarketSession.regular 1471980632572715948 "ZIEXT"
          9700 ((9905 : ℚ) / 100) 1000 ((9907 : ℚ) / 100))) :=
  tops_ok_quoteUpdate (pmap_ok quote_update_quoteVec)

theorem tops_sysVec :
    tops_1_6_message sysVec =
      Except.ok ([], Tops1_6Message.systemEvent
        (SystemEvent.mk SystemEventType.endOfSystemHours 1492448400000000000)) := by
  decide

/-! ### Length-guarded primitive evaluations -/

theorem timestamp_ok_len {l : Bytes} (h : 8 ≤ l.length) :
    timestamp l = Except.ok (l.drop 8, toI64 (leBytes (l.take 8))) := by
  unfold timestamp
  rw [if_pos h]

theorem timestamp_incomplete_len {l : Bytes} (h : l.length < 8) :
    timestamp l = Except.error PErr.incomplete := by
  unfold timestamp
  rw [if_neg (by omega)]

theorem price_ok_len {l : Bytes} (h : 8 ≤ l.length) :
    price l = Except.ok (l.drop 8, (leBytes (l.take 8) : ℚ) / 10000) := by
  unfold price
  rw [if_pos h]

theorem price_incomplete_len {l : Bytes} (h : l.length < 8) :
    price l = Except.error PErr.incomplete := by
  unfold price
  rw [if_neg (by omega)]

theorem iex_string_ok_len {w : Nat} {l : Bytes} (h : w ≤ l.length) :
    iex_string w l = Except.ok (l.drop w, bytesToString (dropTrailingSpaces (l.take w))) := by
  unfold iex_string
  rw [if_pos h]

theorem iex_string_incomplete_len {w : Nat} {l : Bytes} (h : l.length < w) :
    iex_string w l = Except.error PErr.incomplete := by
  unfold iex_string
  rw [if_neg (by omega)]

theorem le_u32_ok_len {l : Bytes} (h : 4 ≤ l.length) :
    le_u32 l = Except.ok (l.drop 4, leBytes (l.take 4)) := by
  unfold le_u32
  rw [if_pos h]

theorem le_u32_eof_len {l : Bytes} (h : l.length < 4) :
    le_u32 l = Except.error (PErr.error ErrKind.eofK) := by
  unfold le_u32
  rw [if_neg (by omega)]

theorem le_i64_ok_len {l : Bytes} (h : 8 ≤ l.length) :
    le_i64 l = Except.ok (l.drop 8, toI64 (leBytes (l.take 8))) := by
  unfold le_i64
  rw [if_pos h]

theorem le_i64_eof_len {l : Bytes} (h : l.length < 8) :
    le_i64 l = Except.error (PErr.error ErrKind.eofK) := by
  unfold le_i64
  rw [if_neg (by omega)]

theorem takeBytes_eof_len {n : Nat} {l : Bytes} (h : l.length < n) :
    takeBytes n l = Except.error (PErr.error ErrKind.eofK) := by
  unfold takeBytes
  rw [if_neg (by omega)]

/-! ### Truncation behavior of the three structured decoders, by region
of the remaining length after the tag and flag bytes -/

theorem quote_body_incomplete_low {f : Nat} {rest : Bytes} (hf : f % 64 = 0)
    (h : rest.length < 16) :
    quote_update (0x51 :: f :: rest) = Except.error PErr.incomplete := by
  unfold quote_update
  rw [pbind_ok tagByte_eq, pbind_ok (quoteFlags_ok hf)]
  by_cases h8 : 8 ≤ rest.length
  · rw [pbind_ok (timestamp_ok_len h8)]
    exact pbind_err (iex_string_incomplete_len (by rw [List.length_drop]; omega))
  · exact pbind_err (timestamp_incomplete_len (by omega))

theorem quote_body_eof_bidsize {f : Nat} {rest : Bytes} (hf : f % 64 = 0)
    (h1 : 16 ≤ rest.length) (h2 : rest.length < 20) :
    quote_update (0x51 :: f :: rest) = Except.error (PErr.error ErrKind.eofK) := by
  unfold quote_update
  rw [pbind_ok tagByte_eq, pbind_ok (quoteFlags_ok hf),
      pbind_ok (timestamp_ok_len (by omega)),
      pbind_ok (iex_string_ok_len (by rw [List.length_drop]; omega))]
  exact pbind_err (le_u32_eof_len (by simp only [List.length_drop]; omega))

theorem quote_body_incomplete_price {f : Nat} {rest : Bytes} (hf : f % 64 = 0)
    (h1 : 20 ≤ rest.length) (h2 : rest.length < 36) :
    quote_update (0x51 :: f :: rest) = Except.error PErr.incomplete := by
  unfold quote_update
  rw [pbind_ok tagByte_eq, pbind_ok (quoteFlags_ok hf),
      pbind_ok (timestamp_ok_len (by omega)),
      pbind_ok (iex_string_ok_len (by rw [List.length_drop]; omega)),
      pbind_ok (le_u32_ok_len (by simp only [List.length_drop]; omega))]
  by_cases h28 : 28 ≤ rest.length
  · rw [pbind_ok (price_ok_len (by simp only [List.length_drop]; omega))]
    exact pbind_err (price_incomplete_len (by simp only [List.length_drop]; omega))
  · exact pbind_err (price_incomplete_len (by simp only [List.length_drop]; omega))

theorem quote_body_eof_asksize {f : Nat} {rest : Bytes} (hf : f % 64 = 0)
    (h1 : 36 ≤ rest.length) (h2 : rest.length < 40) :
    quote_update (0x51 :: f :: rest) = Except.error (PErr.error ErrKind.eofK) := by
  unfold quote_update
  rw [pbind_ok tagByte_eq, pbind_ok (quoteFlags_ok hf),
      pbind_ok (timestamp_ok_len (by omega)),
      pbind_ok (iex_string_ok_len (by rw [List.length_drop]; omega)),
      pbind_ok (le_u32_ok_len (by simp only [List.length_drop]; omega)),
      pbind_ok (price_ok_len (by simp only [List.length_drop]; omega)),
      pbind_ok (price_ok_len (by simp only [List.length_drop]; omega))]
  exact pmap_err (le_u32_eof_len (by simp only [List.length_drop]; omega))

theorem quote_body_ok_ne {f : Nat} {rest : Bytes} (hf : f % 64 = 0)
    (h : 40 ≤ rest.length) :
    quote_update (0x51 :: f :: rest) ≠ Except.error PErr.incomplete := by
  unfold quote_update
  rw [pbind_ok tagByte_eq, pbind_ok (quoteFlags_ok hf),
      pbind_ok (timestamp_ok_len (by omega)),
      pbind_ok (iex_string_ok_len (by rw [List.length_drop]; omega)),
      pbind_ok (le_u32_ok_len (by simp only [List.length_drop]; omega)),
      pbind_ok (price_ok_len (by simp only [List.length_drop]; omega)),
      pbind_ok (price_ok_len (by simp only [List.length_drop]; omega)),
      pmap_ok (le_u32_ok_len (by simp only [List.length_drop]; omega))]
  simp

theorem trade_body_incomplete_low {f : Nat} {rest : Bytes} (hf : f % 8 = 0)
    (h : rest.length < 16) :
    trade_report (0x54 :: f :: rest) = Except.error PErr.incomplete := by
  unfold trade_report
  rw [pbind_ok tagByte_eq, pbind_ok (sale_condition_ok hf)]
  by_cases h8 : 8 ≤ rest.length
  · rw [pbind_ok (timestamp_ok_len h8)]
    exact pbind_err (iex_string_incomplete_len (by rw [List.length_drop]; omega))
  · exact pbind_err (timestamp_incomplete_len (by omega))

theorem trade_body_eof_size {f : Nat} {rest : Bytes} (hf : f % 8 = 0)
    (h1 : 16 ≤ rest.length) (h2 : rest.length < 20) :
    trade_report (0x54 :: f :: rest) = Except.error (PErr.error ErrKind.eofK) := by
  unfold trade_report
  rw [pbind_ok tagByte_eq, pbind_ok (sale_condition_ok hf),
      pbind_ok (timestamp_ok_len (by omega)),
      pbind_ok (iex_string_ok_len (by rw [List.length_drop]; omega))]
  exact pbind_err (le_u32_eof_len (by simp only [List.length_drop]; omega))

theorem trade_body_incomplete_price {f : Nat} {rest : Bytes} (hf : f % 8 = 0)
    (h1 : 20 ≤ rest.length) (h2 : rest.length < 28) :
    trade_report (0x54 :: f :: rest) = Except.error PErr.incomplete := by
  unfold trade_report
  rw [pbind_ok tagByte_eq, pbind_ok (sale_condition_ok hf),
      pbind_ok (timestamp_ok_len (by omega)),
      pbind_ok (iex_string_ok_len (by rw [List.length_drop]; omega)),
      pbind_ok (le_u32_ok_len (by simp only [List.length_drop]; omega))]
  exact pbind_err (price_incomplete_len (by simp only [List.length_drop]; omega))

theorem trade_body_eof_id {f : Nat} {rest : Bytes} (hf : f % 8 = 0)
    (h1 : 28 ≤ rest.length) (h2 : rest.length < 36) :
    trade_report (0x54 :: f :: rest) = Except.error (PErr.error ErrKind.eofK) := by
  unfold trade_report
  rw [pbind_ok tagByte_eq, pbind_ok (sale_condition_ok hf),
      pbind_ok (timestamp_ok_len (by omega)),
      pbind_ok (iex_string_ok_len (by rw [List.length_drop]; omega)),
      pbind_ok (le_u32_ok_len (by simp only [List.length_drop]; omega)),
      pbind_ok (price_ok_len (by simp only [List.length_drop]; omega))]
  exact pmap_err (le_i64_eof_len (by simp only [List.length_drop]; omega))

theorem trade_body_ok_ne {f : Nat} {rest : Bytes} (hf : f % 8 = 0)
    (h : 36 ≤ rest.length) :
    trade_report (0x54 :: f :: rest) ≠ Except.error PErr.incomplete := by
  unfold trade_report
  rw [pbind_ok tagByte_eq, pbind_ok (sale_condition_ok hf),
      pbind_ok (timestamp_ok_len (by omega)),
      pbind_ok (iex_string_ok_len (by rw [List.length_drop]; omega)),
      pbind_ok (le_u32_ok_len (by simp only [List.length_drop]; omega)),
      pbind_ok (price_ok_len (by simp only [List.length_drop]; omega)),
      pmap_ok (le_i64_ok_len (by simp only [List.length_drop]; omega))]
  simp

theorem dummyMessage_short {t len : Nat} {rest : Bytes} (h : rest.length < len) :
    dummyMessage t len (t :: rest) = Except.error (PErr.error ErrKind.eofK) := by
  unfold dummyMessage
  rw [pbind_ok tagByte_eq]
  exact pmap_err (takeBytes_eof_len h)

/-! ### Which results contain the incomplete-input condition -/

theorem pmap_error_iff {α β : Type} {p : Bytes → PResult α} {f : α → β} {input : Bytes}
    {e : PErr} : pmap p f input = Except.error e ↔ p input = Except.error e := by
  unfold pmap pbind
  cases hx : p input with
  | ok w =>
    obtain ⟨r, a⟩ := w
    simp
  | error e2 => simp

theorem palt_incomplete_iff_tagK {α : Type} {p q : Bytes → PResult α} {input : Bytes}
    (hq : q input = Except.error (PErr.error ErrKind.tagK)) :
    (palt p q input = Except.error PErr.incomplete ↔
      p input = Except.error PErr.incomplete) := by
  unfold palt
  cases hx : p input with
  | ok w => simp
  | error e2 =>
    cases e2 with
    | incomplete => simp
    | error k => simp [hq]

theorem palt_not_incomplete {α : Type} {p q : Bytes → PResult α} {input : Bytes}
    (hp : p input ≠ Except.error PErr.incomplete)
    (hq : q input ≠ Except.error PErr.incomplete) :
    palt p q input ≠ Except.error PErr.incomplete := by
  intro h
  unfold palt at h
  cases hx : p input with
  | ok w => rw [hx] at h; simp at h
  | error e2 =>
    cases e2 with
    | incomplete => exact hp hx
    | error k => rw [hx] at h; simp at h; exact hq h

theorem dummyMessage_not_incomplete (t len : Nat) (input : Bytes) :
    dummyMessage t len input ≠ Except.error PErr.incomplete := by
  intro h
  cases input with
  | nil =>
    unfold dummyMessage at h
    rw [pbind_err (tagByte_nil t)] at h
    simp at h
  | cons b rest =>
    by_cases hb : b = t
    · subst hb
      unfold dummyMessage at h
      rw [pbind_ok tagByte_eq, pmap_error_iff] at h
      unfold takeBytes at h
      split at h <;> simp at h
    · unfold dummyMessage at h
      rw [pbind_err (tagByte_ne hb)] at h
      simp at h

theorem altSecurityDirectory_not_incomplete (input : Bytes) :
    altSecurityDirectory input ≠ Except.error PErr.incomplete := by
  intro h
  unfold altSecurityDirectory at h
  rw [pmap_error_iff] at h
  exact dummyMessage_not_incomplete 0x44 30 input h

theorem altTradingStatus_not_incomplete (input : Bytes) :
    altTradingStatus input ≠ Except.error PErr.incomplete := by
  intro h
  unfold altTradingStatus at h
  rw [pmap_error_iff] at h
  exact dummyMessage_not_incomplete 0x48 21 input h

theorem altRetailLiquidityIndicator_not_incomplete (input : Bytes) :
    altRetailLiquidityIndicator input ≠ Except.error PErr.incomplete := by
  intro h
  unfold altRetailLiquidityIndicator at h
  rw [pmap_error_iff] at h
  exact dummyMessage_not_incomplete 0x49 17 input h

theorem altOperationalHaltStatus_not_incomplete (input : Bytes) :
    altOperationalHaltStatus input ≠ Except.error PErr.incomplete := by
  intro h
  unfold altOperationalHaltStatus at h
  rw [pmap_error_iff] at h
  exact dummyMessage_not_incomplete 0x4f 17 input h

theorem altShortSalePriceTestStatus_not_incomplete (input : Bytes) :
    altShortSalePriceTestStatus input ≠ Except.error PErr.incomplete := by
  intro h
  unfold altShortSalePriceTestStatus at h
  rw [pmap_error_iff] at h
  exact dummyMessage_not_incomplete 0x50 18 input h

theorem altOfficialPrice_not_incomplete (input : Bytes) :
    altOfficialPrice input ≠ Except.error PErr.incomplete := by
  intro h
  unfold altOfficialPrice at h
  rw [pmap_error_iff] at h
  exact dummyMessage_not_incomplete 0x58 25 input h

theorem altTradeBreak_not_incomplete (input : Bytes) :
    altTradeBreak input ≠ Except.error PErr.incomplete := by
  intro h
  unfold altTradeBreak at h
  rw [pmap_error_iff] at h
  exact dummyMessage_not_incomplete 0x42 37 input h

theorem altAuctionInformation_not_incomplete (input : Bytes) :
    altAuctionInformation input ≠ Except.error PErr.incomplete := by
  intro h
  unfold altAuctionInformation at h
  rw [pmap_error_iff] at h
  exact dummyMessage_not_incomplete 0x41 79 input h

/-! ### Incomplete-input characterization of each structured decoder -/

theorem system_event_incomplete_iff (input : Bytes) :
    system_event input = Except.error PErr.incomplete ↔
      ∃ b rest, input = 0x53 :: b :: rest ∧
        (b = 0x4f ∨ b = 0x53 ∨ b = 0x52 ∨ b = 0x4d ∨ b = 0x45 ∨ b = 0x43) ∧
        rest.length < 8 := by
  cases input with
  | nil =>
    constructor
    · intro h
      rw [show system_event [] = Except.error (PErr.error ErrKind.tagK) from rfl] at h
      exact absurd h (by decide)
    · rintro ⟨b, rest, hcons, -, -⟩
      cases hcons
  | cons b0 tail =>
    by_cases hb0 : b0 = 0x53
    · subst hb0
      cases tail with
      | nil =>
        constructor
        · intro h
          rw [show system_event [0x53] = Except.error (PErr.error ErrKind.tagK) from rfl] at h
          exact absurd h (by decide)
        · rintro ⟨b, rest, hcons, -, -⟩
          simp at hcons
      | cons b rest =>
        by_cases hv : b = 0x4f ∨ b = 0x53 ∨ b = 0x52 ∨ b = 0x4d ∨ b = 0x45 ∨ b = 0x43
        · have hsub : ∃ et, systemEventSubtype (b :: rest) = Except.ok (rest, et) := by
            rcases hv with rfl | rfl | rfl | rfl | rfl | rfl
            · exact ⟨SystemEventType.startOfMessages, rfl⟩
            · exact ⟨SystemEventType.startOfSystemHours, rfl⟩
            · exact ⟨SystemEventType.startOfRegularHours, rfl⟩
            · exact ⟨SystemEventType.endOfRegularHours, rfl⟩
            · exact ⟨SystemEventType.endOfSystemHours, rfl⟩
            · exact ⟨SystemEventType.endOfMessages, rfl⟩
          obtain ⟨et, hsub⟩ := hsub
          constructor
          · intro h
            refine ⟨b, rest, rfl, hv, ?_⟩
            by_contra h8
            push_neg at h8
            unfold system_event at h
            rw [pbind_ok tagByte_eq, pbind_ok hsub,
              pmap_ok (timestamp_ok_len h8)] at h
            exact Except.noConfusion h
          · rintro ⟨b2, rest2, hcons, -, h8⟩
            obtain ⟨hb2, hr2⟩ := List.cons.injEq .. ▸ (List.cons.inj hcons).2
            subst hb2
            subst hr2
            unfold system_event
            rw [pbind_ok tagByte_eq, pbind_ok hsub]
            exact pmap_err (timestamp_incomplete_len h8)
        · push_neg at hv
          obtain ⟨n1, n2, n3, n4, n5, n6⟩ := hv
          have hsub : systemEventSubtype (b :: rest) =
              Except.error (PErr.error ErrKind.tagK) := by
            simp [systemEventSubtype, n1, n2, n3, n4, n5, n6]
          constructor
          · intro h
            unfold system_event at h
            rw [pbind_ok tagByte_eq, pbind_err hsub] at h
            exact absurd h (by decide)
          · rintro ⟨b2, rest2, hcons, hv2, -⟩
            obtain ⟨hb2, -⟩ := List.cons.injEq .. ▸ (List.cons.inj hcons).2
            subst hb2
            rcases hv2 with h | h | h | h | h | h
            · exact absurd h n1
            · exact absurd h n2
            · exact absurd h n3
            · exact absurd h n4
            · exact absurd h n5
            · exact absurd h n6
    · constructor
      · intro h
        unfold system_event at h
        rw [pbind_err (tagByte_ne hb0)] at h
        exact absurd h (by decide)
      · rintro ⟨b, rest, hcons, -, -⟩
        obtain ⟨hb0eq, -⟩ := List.cons.injEq .. ▸ hcons
        exact absurd hb0eq hb0

theorem quote_update_incomplete_iff (input : Bytes) :
    quote_update input = Except.error PErr.incomplete ↔
      ∃ f rest, input = 0x51 :: f :: rest ∧ f % 64 = 0 ∧
        (rest.length < 16 ∨ (20 ≤ rest.length ∧ rest.length < 36)) := by
  cases input with
  | nil =>
    constructor
    · intro h
      rw [show quote_update [] = Except.error (PErr.error ErrKind.tagK) from rfl] at h
      exact absurd h (by decide)
    · rintro ⟨f, rest, hcons, -, -⟩
      cases hcons
  | cons b tail =>
    by_cases hb : b = 0x51
    · subst hb
      cases tail with
      | nil =>
        constructor
        · intro h
          rw [show quote_update [0x51] = Except.error (PErr.error ErrKind.eofK) from rfl] at h
          exact absurd h (by decide)
        · rintro ⟨f, rest, hcons, -, -⟩
          simp at hcons
      | cons f rest =>
        by_cases hf : f % 64 = 0
        · constructor
          · intro h
            rcases Nat.lt_or_ge rest.length 16 with h16 | h16
            · exact ⟨f, rest, rfl, hf, Or.inl h16⟩
            rcases Nat.lt_or_ge rest.length 20 with h20 | h20
            · rw [quote_body_eof_bidsize hf h16 h20] at h
              exact absurd h (by decide)
            rcases Nat.lt_or_ge rest.length 36 with h36 | h36
            · exact ⟨f, rest, rfl, hf, Or.inr ⟨h20, h36⟩⟩
            rcases Nat.lt_or_ge rest.length 40 with h40 | h40
            · rw [quote_body_eof_asksize hf h36 h40] at h
              exact absurd h (by decide)
            · exact absurd h (quote_body_ok_ne hf h40)
          · rintro ⟨f2, rest2, hcons, hf2, hreg⟩
            obtain ⟨hfeq, hreq⟩ := List.cons.injEq .. ▸ (List.cons.inj hcons).2
            subst hfeq
            subst hreq
            rcases hreg with h16 | ⟨h20, h36⟩
            · exact quote_body_incomplete_low hf h16
            · exact quote_body_incomplete_price hf h20 h36
        · constructor
          · intro h
            rw [quote_update_reserved_reject hf] at h
            exact absurd h (by decide)
          · rintro ⟨f2, rest2, hcons, hf2, -⟩
            obtain ⟨hfeq, -⟩ := List.cons.injEq .. ▸ (List.cons.inj hcons).2
            subst hfeq
            exact absurd hf2 hf
    · constructor
      · intro h
        unfold quote_update at h
        rw [pbind_err (tagByte_ne hb)] at h
        exact absurd h (by decide)
      · rintro ⟨f, rest, hcons, -, -⟩
        obtain ⟨hbeq, -⟩ := List.cons.injEq .. ▸ hcons
        exact absurd hbeq hb

theorem trade_report_incomplete_iff (input : Bytes) :
    trade_report input = Except.error PErr.incomplete ↔
      ∃ f rest, input = 0x54 :: f :: rest ∧ f % 8 = 0 ∧
        (rest.length < 16 ∨ (20 ≤ rest.length ∧ rest.length < 28)) := by
  cases input with
  | nil =>
    constructor
    · intro h
      rw [show trade_report [] = Except.error (PErr.error ErrKind.tagK) from rfl] at h
      exact absurd h (by decide)
    · rintro ⟨f, rest, hcons, -, -⟩
      cases hcons
  | cons b tail =>
    by_cases hb : b = 0x54
    · subst hb
      cases tail with
      | nil =>
        constructor
        · intro h
          rw [show trade_report [0x54] = Except.error (PErr.error ErrKind.eofK) from rfl] at h
          exact absurd h (by decide)
        · rintro ⟨f, rest, hcons, -, -⟩
          simp at hcons
      | cons f rest =>
        by_cases hf : f % 8 = 0
        · constructor
          · intro h
            rcases Nat.lt_or_ge rest.length 16 with h16 | h16
            · exact ⟨f, rest, rfl, hf, Or.inl h16⟩
            rcases Nat.lt_or_ge rest.length 20 with h20 | h20
            · rw [trade_body_eof_size hf h16 h20] at h
              exact absurd h (by decide)
            rcases Nat.lt_or_ge rest.length 28 with h28 | h28
            · exact ⟨f, rest, rfl, hf, Or.inr ⟨h20, h28⟩⟩
            rcases Nat.lt_or_ge rest.length 36 with h36 | h36
            · rw [trade_body_eof_id hf h28 h36] at h
              exact absurd h (by decide)
            · exact absurd h (trade_body_ok_ne hf h36)
          · rintro ⟨f2, rest2, hcons, hf2, hreg⟩
            obtain ⟨hfeq, hreq⟩ := List.cons.injEq .. ▸ (List.cons.inj hcons).2
            subst hfeq
            subst hreq
            rcases hreg with h16 | ⟨h20, h28⟩
            · exact trade_body_incomplete_low hf h16
            · exact trade_body_incomplete_price hf h20 h28
        · constructor
          · intro h
            rw [trade_report_reserved_reject hf] at h
            exact absurd h (by decide)
          · rintro ⟨f2, rest2, hcons, hf2, -⟩
            obtain ⟨hfeq, -⟩ := List.cons.injEq .. ▸ (List.cons.inj hcons).2
            subst hfeq
            exact absurd hf2 hf
    · constructor
      · intro h
        unfold trade_report at h
        rw [pbind_err (tagByte_ne hb)] at h
        exact absurd h (by decide)
      · rintro ⟨f, rest, hcons, -, -⟩
        obtain ⟨hbeq, -⟩ := List.cons.injEq .. ▸ hcons
        exact absurd hbeq hb

/-! ### Incomplete-input characterization of the dispatcher -/

theorem tops_incomplete_53 (tail : Bytes) :
    tops_1_6_message (0x53 :: tail) = Except.error PErr.incomplete ↔
      system_event (0x53 :: tail) = Except.error PErr.incomplete := by
  unfold tops_1_6_message
  rw [palt_incomplete_iff_tagK (tailFromSecurityDirectory (by decide) (by decide)
    (by decide) (by decide) (by decide) (by decide) (by decide) (by decide)
    (by decide) (by decide))]
  unfold altSystemEvent
  exact pmap_error_iff

theorem tops_incomplete_51 (tail : Bytes) :
    tops_1_6_message (0x51 :: tail) = Except.error PErr.incomplete ↔
      quote_update (0x51 :: tail) = Except.error PErr.incomplete := by
  unfold tops_1_6_message
  rw [palt_fallthrough (altSystemEvent_guard (by decide)),
      palt_fallthrough (altSecurityDirectory_guard (by decide)),
      palt_fallthrough (altTradingStatus_guard (by decide)),
      palt_fallthrough (altRetailLiquidityIndicator_guard (by decide)),
      palt_fallthrough (altOperationalHaltStatus_guard (by decide)),
      palt_fallthrough (altShortSalePriceTestStatus_guard (by decide))]
  rw [palt_incomplete_iff_tagK (tailFromTradeReport (by decide) (by decide)
    (by decide) (by decide))]
  unfold altQuoteUpdate
  exact pmap_error_iff

theorem tops_incomplete_54 (tail : Bytes) :
    tops_1_6_message (0x54 :: tail) = Except.error PErr.incomplete ↔
      trade_report (0x54 :: tail) = Except.error PErr.incomplete := by
  unfold tops_1_6_message
  rw [palt_fallthrough (altSystemEvent_guard (by decide)),
      palt_fallthrough (altSecurityDirectory_guard (by decide)),
      palt_fallthrough (altTradingStatus_guard (by decide)),
      palt_fallthrough (altRetailLiquidityIndicator_guard (by decide)),
      palt_fallthrough (altOperationalHaltStatus_guard (by decide)),
      palt_fallthrough (altShortSalePriceTestStatus_guard (by decide)),
      palt_fallthrough (altQuoteUpdate_guard (by decide))]
  rw [palt_incomplete_iff_tagK (tailFromOfficialPrice (by decide) (by decide)
    (by decide))]
  unfold altTradeReport
  exact pmap_error_iff

theorem tops_not_incomplete_other {b : Nat} (tail : Bytes) (h53 : b ≠ 0x53)
    (h51 : b ≠ 0x51) (h54 : b ≠ 0x54) :
    tops_1_6_message (b :: tail) ≠ Except.error PErr.incomplete := by
  unfold tops_1_6_message
  apply palt_not_incomplete (by rw [altSystemEvent_guard h53]; decide)
  apply palt_not_incomplete (altSecurityDirectory_not_incomplete _)
  apply palt_not_incomplete (altTradingStatus_not_incomplete _)
  apply palt_not_incomplete (altRetailLiquidityIndicator_not_incomplete _)
  apply palt_not_incomplete (altOperationalHaltStatus_not_incomplete _)
  apply palt_not_incomplete (altShortSalePriceTestStatus_not_incomplete _)
  apply palt_not_incomplete (by rw [altQuoteUpdate_guard h51]; decide)
  apply palt_not_incomplete (by rw [altTradeReport_guard h54]; decide)
  apply palt_not_incomplete (altOfficialPrice_not_incomplete _)
  exact palt_not_incomplete (altTradeBreak_not_incomplete _)
    (altAuctionInformation_not_incomplete _)

theorem tops_incomplete_iff (input : Bytes) :
    tops_1_6_message input = Except.error PErr.incomplete ↔
      ((∃ b rest, input = 0x53 :: b :: rest ∧
          (b = 0x4f ∨ b = 0x53 ∨ b = 0x52 ∨ b = 0x4d ∨ b = 0x45 ∨ b = 0x43) ∧
          rest.length < 8) ∨
       (∃ f rest, input = 0x51 :: f :: rest ∧ f % 64 = 0 ∧
          (rest.length < 16 ∨ (20 ≤ rest.length ∧ rest.length < 36))) ∨
       (∃ f rest, input = 0x54 :: f :: rest ∧ f % 8 = 0 ∧
          (rest.length < 16 ∨ (20 ≤ rest.length ∧ rest.length < 28)))) := by
  cases input with
  | nil =>
    constructor
    · intro h
      rw [show tops_1_6_message [] = Except.error (PErr.error ErrKind.tagK) from rfl] at h
      exact absurd h (by decide)
    · rintro (⟨b, rest, hcons, -, -⟩ | ⟨f, rest, hcons, -, -⟩ | ⟨f, rest, hcons, -, -⟩) <;>
        cases hcons
  | cons b tail =>
    by_cases h53 : b = 0x53
    · subst h53
      rw [tops_incomplete_53, system_event_incomplete_iff]
      constructor
      · intro h
        exact Or.inl h
      · rintro (h | ⟨f, rest, hcons, -, -⟩ | ⟨f, rest, hcons, -, -⟩)
        · exact h
        · simp at hcons
        · simp at hcons
    · by_cases h51 : b = 0x51
      · subst h51
        rw [tops_incomplete_51, quote_update_incomplete_iff]
        constructor
        · intro h
          exact Or.inr (Or.inl h)
        · rintro (⟨b2, rest, hcons, -, -⟩ | h | ⟨f, rest, hcons, -, -⟩)
          · simp at hcons
          · exact h
          · simp at hcons
      · by_cases h54 : b = 0x54
        · subst h54
          rw [tops_incomplete_54, trade_report_incomplete_iff]
          constructor
          · intro h
            exact Or.inr (Or.inr h)
          · rintro (⟨b2, rest, hcons, -, -⟩ | ⟨f, rest, hcons, -, -⟩ | h)
            · simp at hcons
            · simp at hcons
            · exact h
        · constructor
          · intro h
            exact absurd h (tops_not_incomplete_other tail h53 h51 h54)
          · rintro (⟨b2, rest, hcons, -, -⟩ | ⟨f, rest, hcons, -, -⟩ | ⟨f, rest, hcons, -, -⟩)
            · obtain ⟨hbeq, -⟩ := List.cons.injEq .. ▸ hcons
              exact absurd hbeq h53
            · obtain ⟨hbeq, -⟩ := List.cons.injEq .. ▸ hcons
              exact absurd hbeq h51
            · obtain ⟨hbeq, -⟩ := List.cons.injEq .. ▸ hcons
              exact absurd hbeq h54

/-! ### Short matched-tag inputs outside the utils primitives: recoverable
errors at the dispatcher -/

theorem tops_short_securityDirectory {rest : Bytes} (h : rest.length < 30) :
    tops_1_6_message (0x44 :: rest) = Except.error (PErr.error ErrKind.tagK) := by
  unfold tops_1_6_message
  rw [palt_fallthrough (altSystemEvent_guard (by decide)),
      palt_fallthrough (show altSecurityDirectory (0x44 :: rest) =
        Except.error (PErr.error ErrKind.eofK) from pmap_err (dummyMessage_short h))]
  exact tailFromTradingStatus (by decide) (by decide) (by decide) (by decide)
    (by decide) (by decide) (by decide) (by decide) (by decide)

theorem tops_short_tradingStatus {rest : Bytes} (h : rest.length < 21) :
    tops_1_6_message (0x48 :: rest) = Except.error (PErr.error ErrKind.tagK) := by
  unfold tops_1_6_message
  rw [palt_fallthrough (altSystemEvent_guard (by decide)),
      palt_fallthrough (altSecurityDirectory_guard (by decide)),
      palt_fallthrough (show altTradingStatus (0x48 :: rest) =
        Except.error (PErr.error ErrKind.eofK) from pmap_err (dummyMessage_short h))]
  exact tailFromRetail (by decide) (by decide) (by decide) (by decide)
    (by decide) (by decide) (by decide) (by decide)

theorem tops_short_retail {rest : Bytes} (h : rest.length < 17) :
    tops_1_6_message (0x49 :: rest) = Except.error (PErr.error ErrKind.tagK) := by
  unfold tops_1_6_message
  rw [palt_fallthrough (altSystemEvent_guard (by decide)),
      palt_fallthrough (altSecurityDirectory_guard (by decide)),
      palt_fallthrough (altTradingStatus_guard (by decide)),
      palt_fallthrough (show altRetailLiquidityIndicator (0x49 :: rest) =
        Except.error (PErr.error ErrKind.eofK) from pmap_err (dummyMessage_short h))]
  exact tailFromOperationalHalt (by decide) (by decide) (by decide) (by decide)
    (by decide) (by decide) (by decide)

theorem tops_short_operationalHalt {rest : Bytes} (h : rest.length < 17) :
    tops_1_6_message (0x4f :: rest) = Except.error (PErr.error ErrKind.tagK) := by
  unfold tops_1_6_message
  rw [palt_fallthrough (altSystemEvent_guard (by decide)),
      palt_fallthrough (altSecurityDirectory_guard (by decide)),
      palt_fallthrough (altTradingStatus_guard (by decide)),
      palt_fallthrough (altRetailLiquidityIndicator_guard (by decide)),
      palt_fallthrough (show altOperationalHaltStatus (0x4f :: rest) =
        Except.error (PErr.error ErrKind.eofK) from pmap_err (dummyMessage_short h))]
  exact tailFromShortSale (by decide) (by decide) (by decide) (by decide)
    (by decide) (by decide)

theorem tops_short_shortSale {rest : Bytes} (h : rest.length < 18) :
    tops_1_6_message (0x50 :: rest) = Except.error (PErr.error ErrKind.tagK) := by
  unfold tops_1_6_message
  rw [palt_fallthrough (altSystemEvent_guard (by decide)),
      palt_fallthrough (altSecurityDirectory_guard (by decide)),
      palt_fallthrough (altTradingStatus_guard (by decide)),
      palt_fallthrough (altRetailLiquidityIndicator_guard (by decide)),
      palt_fallthrough (altOperationalHaltStatus_guard (by decide)),
      palt_fallthrough (show altShortSalePriceTestStatus (0x50 :: rest) =
        Except.error (PErr.error ErrKind.eofK) from pmap_err (dummyMessage_short h))]
  exact tailFromQuoteUpdate (by decide) (by decide) (by decide) (by decide) (by decide)

theorem tops_short_officialPrice {rest : Bytes} (h : rest.length < 25) :
    tops_1_6_message (0x58 :: rest) = Except.error (PErr.error ErrKind.tagK) := by
  unfold tops_1_6_message
  rw [palt_fallthrough (altSystemEvent_guard (by decide)),
      palt_fallthrough (altSecurityDirectory_guard (by decide)),
      palt_fallthrough (altTradingStatus_guard (by decide)),
      palt_fallthrough (altRetailLiquidityIndicator_guard (by decide)),
      palt_fallthrough (altOperationalHaltStatus_guard (by decide)),
      palt_fallthrough (altShortSalePriceTestStatus_guard (by decide)),
      palt_fallthrough (altQuoteUpdate_guard (by decide)),
      palt_fallthrough (altTradeReport_guard (by decide)),
      palt_fallthrough (show altOfficialPrice (0x58 :: rest) =
        Except.error (PErr.error ErrKind.eofK) from pmap_err (dummyMessage_short h))]
  exact tailFromTradeBreak (by decide) (by decide)

theorem tops_short_tradeBreak {rest : Bytes} (h : rest.length < 37) :
    tops_1_6_message (0x42 :: rest) = Except.error (PErr.error ErrKind.tagK) := by
  unfold tops_1_6_message
  rw [palt_fallthrough (altSystemEvent_guard (by decide)),
      palt_fallthrough (altSecurityDirectory_guard (by decide)),
      palt_fallthrough (altTradingStatus_guard (by decide)),
      palt_fallthrough (altRetailLiquidityIndicator_guard (by decide)),
      palt_fallthrough (altOperationalHaltStatus_guard (by decide)),
      palt_fallthrough (altShortSalePriceTestStatus_guard (by decide)),
      palt_fallthrough (altQuoteUpdate_guard (by decide)),
      palt_fallthrough (altTradeReport_guard (by decide)),
      palt_fallthrough (altOfficialPrice_guard (by decide)),
      palt_fallthrough (show altTradeBreak (0x42 :: rest) =
        Except.error (PErr.error ErrKind.eofK) from pmap_err (dummyMessage_short h))]
  exact altAuctionInformation_guard (by decide)

theorem tops_short_auction {rest : Bytes} (h : rest.length < 79) :
    tops_1_6_message (0x41 :: rest) = Except.error (PErr.error ErrKind.eofK) := by
  unfold tops_1_6_message
  rw [palt_fallthrough (altSystemEvent_guard (by decide)),
      palt_fallthrough (altSecurityDirectory_guard (by decide)),
      palt_fallthrough (altTradingStatus_guard (by decide)),
      palt_fallthrough (altRetailLiquidityIndicator_guard (by decide)),
      palt_fallthrough (altOperationalHaltStatus_guard (by decide)),
      palt_fallthrough (altShortSalePriceTestStatus_guard (by decide)),
      palt_fallthrough (altQuoteUpdate_guard (by decide)),
      palt_fallthrough (altTradeReport_guard (by decide)),
      palt_fallthrough (altOfficialPrice_guard (by decide)),
      palt_fallthrough (altTradeBreak_guard (by decide))]
  exact pmap_err (dummyMessage_short h)

theorem tops_quote_eof_bidsize {f : Nat} {rest : Bytes} (hf : f % 64 = 0)
    (h1 : 16 ≤ rest.length) (h2 : rest.length < 20) :
    tops_1_6_message (0x51 :: f :: rest) = Except.error (PErr.error ErrKind.tagK) := by
  unfold tops_1_6_message
  rw [palt_fallthrough (altSystemEvent_guard (by decide)),
      palt_fallthrough (altSecurityDirectory_guard (by decide)),
      palt_fallthrough (altTradingStatus_guard (by decide)),
      palt_fallthrough (altRetailLiquidityIndicator_guard (by decide)),
      palt_fallthrough (altOperationalHaltStatus_guard (by decide)),
      palt_fallthrough (altShortSalePriceTestStatus_guard (by decide)),
      palt_fallthrough (show altQuoteUpdate (0x51 :: f :: rest) =
        Except.error (PErr.error ErrKind.eofK) from
        pmap_err (quote_body_eof_bidsize hf h1 h2))]
  exact tailFromTradeReport (by decide) (by decide) (by decide) (by decide)

theorem tops_quote_eof_asksize {f : Nat} {rest : Bytes} (hf : f % 64 = 0)
    (h1 : 36 ≤ rest.length) (h2 : rest.length < 40) :
    tops_1_6_message (0x51 :: f :: rest) = Except.error (PErr.error ErrKind.tagK) := by
  unfold tops_1_6_message
  rw [palt_fallthrough (altSystemEvent_guard (by decide)),
      palt_fallthrough (altSecurityDirectory_guard (by decide)),
      palt_fallthrough (altTradingStatus_guard (by decide)),
      palt_fallthrough (altRetailLiquidityIndicator_guard (by decide)),
      palt_fallthrough (altOperationalHaltStatus_guard (by decide)),
      palt_fallthrough (altShortSalePriceTestStatus_guard (by decide)),
      palt_fallthrough (show altQuoteUpdate (0x51 :: f :: rest) =
        Except.error (PErr.error ErrKind.eofK) from
        pmap_err (quote_body_eof_asksize hf h1 h2))]
  exact tailFromTradeReport (by decide) (by decide) (by decide) (by decide)

theorem tops_trade_eof_size {f : Nat} {rest : Bytes} (hf : f % 8 = 0)
    (h1 : 16 ≤ rest.length) (h2 : rest.length < 20) :
    tops_1_6_message (0x54 :: f :: rest) = Except.error (PErr.error ErrKind.tagK) := by
  unfold tops_1_6_message
  rw [palt_fallthrough (altSystemEvent_guard (by decide)),
      palt_fallthrough (altSecurityDirectory_guard (by decide)),
      palt_fallthrough (altTradingStatus_guard (by decide)),
      palt_fallthrough (altRetailLiquidityIndicator_guard (by decide)),
      palt_fallthrough (altOperationalHaltStatus_guard (by decide)),
      palt_fallthrough (altShortSalePriceTestStatus_guard (by decide)),
      palt_fallthrough (altQuoteUpdate_guard (by decide)),
      palt_fallthrough (show altTradeReport (0x54 :: f :: rest) =
        Except.error (PErr.error ErrKind.eofK) from
        pmap_err (trade_body_eof_size hf h1 h2))]
  exact tailFromOfficialPrice (by decide) (by decide) (by decide)

theorem tops_trade_eof_id {f : Nat} {rest : Bytes} (hf : f % 8 = 0)
    (h1 : 28 ≤ rest.length) (h2 : rest.length < 36) :
    tops_1_6_message (0x54 :: f :: rest) = Except.error (PErr.error ErrKind.tagK) := by
  unfold tops_1_6_message
  rw [palt_fallthrough (altSystemEvent_guard (by decide)),
      palt_fallthrough (altSecurityDirectory_guard (by decide)),
      palt_fallthrough (altTradingStatus_guard (by decide)),
      palt_fallthrough (altRetailLiquidityIndicator_guard (by decide)),
      palt_fallthrough (altOperationalHaltStatus_guard (by decide)),
      palt_fallthrough (altShortSalePriceTestStatus_guard (by decide)),
      palt_fallthrough (altQuoteUpdate_guard (by decide)),
      palt_fallthrough (show altTradeReport (0x54 :: f :: rest) =
        Except.error (PErr.error ErrKind.eofK) from
        pmap_err (trade_body_eof_id hf h1 h2))]
  exact tailFromOfficialPrice (by decide) (by decide) (by decide)

/-! ### Claim theorems -/

/-- C1 counterexample: the claim says the fixed-point price primitive
reads 4 bytes.  Were that so, the quote decoder would parse the
42-byte reference vector of the repository with eight bytes left over and
a garbled ask side (ask_size 990700, ask_price 0), contradicting the
repository test quote_update_example, which requires zero remaining
bytes, ask_size 1000 and ask_price near 99.07; the decoder as pinned by
that test indeed consumes all 42 bytes.  The price field is 8 bytes
wide. -/
theorem c1_counterexample :
    quoteUpdateSpecPrice4 quoteVec =
      Except.ok ([0x00, 0x00, 0x00, 0x00, 0xE8, 0x03, 0x00, 0x00],
        QuoteUpdate.mk true MarketSession.regular 1471980632572715948 "ZIEXT"
          9700 ((9905 : ℚ) / 100) 990700 0) ∧
    ([0x00, 0x00, 0x00, 0x00, 0xE8, 0x03, 0x00, 0x00] : Bytes) ≠ [] ∧
    tops_1_6_message quoteVec =
      Except.ok ([], Tops1_6Message.quoteUpdate
        (QuoteUpdate.mk true MarketSession.regular 1471980632572715948 "ZIEXT"
          9700 ((9905 : ℚ) / 100) 1000 ((9907 : ℚ) / 100))) :=
  ⟨quoteUpdateSpecPrice4_quoteVec, by decide, tops_quoteVec⟩

/-- C1 (amended): the fixed-point price primitive reads an 8-byte (not
4-byte) little-endian unsigned integer scaled by 10,000 and divides by
10,000; it fails only when the input has fewer than 8 bytes, reporting
the incomplete-input condition. -/
theorem c1_price_amended :
    (∀ b0 b1 b2 b3 b4 b5 b6 b7 : Nat, ∀ rest : Bytes,
      price (b0 :: b1 :: b2 :: b3 :: b4 :: b5 :: b6 :: b7 :: rest) =
        Except.ok (rest,
          ((b0 + 256 * b1 + 65536 * b2 + 16777216 * b3 + 4294967296 * b4 +
            1099511627776 * b5 + 281474976710656 * b6 +
            72057594037927936 * b7 : Nat) : ℚ) / 10000)) ∧
    (∀ input : Bytes, ∀ e : PErr, price input = Except.error e →
      e = PErr.incomplete ∧ input.length < 8) := by
  constructor
  · intro b0 b1 b2 b3 b4 b5 b6 b7 rest
    rw [show (b0 :: b1 :: b2 :: b3 :: b4 :: b5 :: b6 :: b7 :: rest) =
      ([b0, b1, b2, b3, b4, b5, b6, b7] ++ rest) from rfl,
      @price_append [b0, b1, b2, b3, b4, b5, b6, b7] rest rfl]
    simp only [leBytes, Except.ok.injEq, Prod.mk.injEq, true_and]
    push_cast
    ring
  · intro input e h
    by_cases hlen : 8 ≤ input.length
    · unfold price at h
      rw [if_pos hlen] at h
      cases h
    · unfold price at h
      rw [if_neg hlen] at h
      exact ⟨(Except.error.inj h).symm, by omega⟩

theorem c1_price_amended_witness :
    PErr.incomplete = PErr.incomplete ∧ ([0x24, 0x1D, 0x0F] : Bytes).length < 8 :=
  c1_price_amended.2 [0x24, 0x1D, 0x0F] PErr.incomplete rfl

/-- C2 counterexample: the claim says an accepted QuoteUpdate consumes
exactly 1 + 33 bytes and returns the rest of the input; on the
42-byte reference vector of the repository the decoder is accepted with an
empty remainder, yet dropping 34 bytes leaves 8 bytes, so the returned
remainder is not the input with 34 bytes dropped — the fixed body is 41
bytes, not 33. -/
theorem c2_counterexample :
    quote_update quoteVec =
      Except.ok ([], QuoteUpdate.mk true MarketSession.regular 1471980632572715948 "ZIEXT"
        9700 ((9905 : ℚ) / 100) 1000 ((9907 : ℚ) / 100)) ∧
    List.drop 34 quoteVec = [0x00, 0x00, 0x00, 0x00, 0xE8, 0x03, 0x00, 0x00] ∧
    ([] : Bytes) ≠ [0x00, 0x00, 0x00, 0x00, 0xE8, 0x03, 0x00, 0x00] :=
  ⟨quote_update_quoteVec, by decide, by decide⟩

/-- C2 (amended): every input accepted as a QuoteUpdate starts with tag
byte 0x51, consumes exactly 1 + 41 bytes and returns the rest; the
41-byte body is laid out, in order, as 1 flag byte, 8-byte timestamp,
8-byte symbol, 4-byte bid size, 8-byte bid price, 8-byte ask price,
4-byte ask size (bid side size-then-price, ask side price-then-size). -/
theorem c2_quote_layout_amended :
    (∀ input rest : Bytes, ∀ q : QuoteUpdate, quote_update input = Except.ok (rest, q) →
      input.head? = some 0x51 ∧ 42 ≤ input.length ∧ rest = input.drop 42) ∧
    (∀ f : Nat, ∀ ts sym bs bp ap asz rest : Bytes, f % 64 = 0 → ts.length = 8 →
      sym.length = 8 → bs.length = 4 → bp.length = 8 → ap.length = 8 → asz.length = 4 →
      quote_update (0x51 :: f :: (ts ++ (sym ++ (bs ++ (bp ++ (ap ++ (asz ++ rest))))))) =
        Except.ok (rest, QuoteUpdate.mk (!f.testBit 7)
          (if f.testBit 6 then MarketSession.outOfHours else MarketSession.regular)
          (toI64 (leBytes ts)) (bytesToString (dropTrailingSpaces sym))
          (leBytes bs) ((leBytes bp : ℚ) / 10000) (leBytes asz)
          ((leBytes ap : ℚ) / 10000))) := by
  constructor
  · intro input rest q h
    obtain ⟨f, tl, hin, -, -, -⟩ := quote_update_inv h
    obtain ⟨hlen, hrest⟩ := consumes_quote_update input rest q h
    refine ⟨?_, hlen, hrest⟩
    rw [hin]
    rfl
  · intro f ts sym bs bp ap asz rest hf hts hsym hbs hbp hap hasz
    exact quote_update_eval hf hts hsym hbs hbp hap hasz

theorem c2_quote_layout_amended_witness :
    (quoteVec.head? = some 0x51 ∧ 42 ≤ quoteVec.length ∧ ([] : Bytes) = quoteVec.drop 42) ∧
    quote_update (0x51 :: 0x00 ::
      ([0xAC, 0x63, 0xC0, 0x20, 0x96, 0x86, 0x6D, 0x14] ++
      ([0x5A, 0x49, 0x45, 0x58, 0x54, 0x20, 0x20, 0x20] ++
      ([0xE4, 0x25, 0x00, 0x00] ++
      ([0x24, 0x1D, 0x0F, 0x00, 0x00, 0x00, 0x00, 0x00] ++
      ([0xEC, 0x1D, 0x0F, 0x00, 0x00, 0x00, 0x00, 0x00] ++
      ([0xE8, 0x03, 0x00, 0x00] ++ ([] : Bytes)))))))) =
      Except.ok (([] : Bytes), QuoteUpdate.mk (!Nat.testBit 0x00 7)
        (if Nat.testBit 0x00 6 then MarketSession.outOfHours else MarketSession.regular)
        (toI64 (leBytes [0xAC, 0x63, 0xC0, 0x20, 0x96, 0x86, 0x6D, 0x14]))
        (bytesToString (dropTrailingSpaces [0x5A, 0x49, 0x45, 0x58, 0x54, 0x20, 0x20, 0x20]))
        (leBytes [0xE4, 0x25, 0x00, 0x00])
        ((leBytes [0x24, 0x1D, 0x0F, 0x00, 0x00, 0x00, 0x00, 0x00] : ℚ) / 10000)
        (leBytes [0xE8, 0x03, 0x00, 0x00])
        ((leBytes [0xEC, 0x1D, 0x0F, 0x00, 0x00, 0x00, 0x00, 0x00] : ℚ) / 10000)) :=
  ⟨c2_quote_layout_amended.1 quoteVec []
      (QuoteUpdate.mk true MarketSession.regular 1471980632572715948 "ZIEXT"
        9700 ((9905 : ℚ) / 100) 1000 ((9907 : ℚ) / 100)) quote_update_quoteVec,
   c2_quote_layout_amended.2 0x00 _ _ _ _ _ _ _ rfl rfl rfl rfl rfl rfl rfl⟩

/-- C3 counterexample: a buffer holding only the tag byte of a
SecurityDirectory message (matched tag, body far shorter than the 30
bytes required) is rejected with the same recoverable tag-kind error
that an entirely unknown leading byte produces — not with the
incomplete-input condition — so the caller cannot distinguish it from
corrupt data. -/
theorem c3_counterexample :
    tops_1_6_message [0x44] = Except.error (PErr.error ErrKind.tagK) ∧
    PErr.error ErrKind.tagK ≠ PErr.incomplete ∧
    tops_1_6_message [0xFF] = Except.error (PErr.error ErrKind.tagK) :=
  ⟨rfl, by decide, rfl⟩

/-- C3 (amended): decoding reports the incomplete-input condition
exactly when the leading tag is SystemEvent with a recognized subtype
byte and fewer than 8 further bytes, or QuoteUpdate (resp. TradeReport)
with an accepted flag byte and the truncation falling inside the
timestamp, symbol, or price fields — in particular the first 5 bytes of
a QuoteUpdate message report Incomplete.  Every other matched-tag-but-
short input is rejected with a recoverable error and no record: all
eight opaque kinds with short bodies, a lone tag byte with its
flag/subtype byte missing, and truncation inside a plain integer field
(bid/ask size, trade size, trade id) report — after the alternation
falls through — the same recoverable kind as an unrecognized tag, except
the final alternative AuctionInformation, whose own Eof kind is kept; in
either case the failure is not the Incomplete condition, so it is not
distinguishable from corrupt data. -/
theorem c3_incomplete_amended :
    (∀ input : Bytes, tops_1_6_message input = Except.error PErr.incomplete ↔
      ((∃ b rest, input = 0x53 :: b :: rest ∧
          (b = 0x4f ∨ b = 0x53 ∨ b = 0x52 ∨ b = 0x4d ∨ b = 0x45 ∨ b = 0x43) ∧
          rest.length < 8) ∨
       (∃ f rest, input = 0x51 :: f :: rest ∧ f % 64 = 0 ∧
          (rest.length < 16 ∨ (20 ≤ rest.length ∧ rest.length < 36))) ∨
       (∃ f rest, input = 0x54 :: f :: rest ∧ f % 8 = 0 ∧
          (rest.length < 16 ∨ (20 ≤ rest.length ∧ rest.length < 28))))) ∧
    (∀ rest : Bytes,
      (rest.length < 30 →
        tops_1_6_message (0x44 :: rest) = Except.error (PErr.error ErrKind.tagK)) ∧
      (rest.length < 21 →
        tops_1_6_message (0x48 :: rest) = Except.error (PErr.error ErrKind.tagK)) ∧
      (rest.length < 17 →
        tops_1_6_message (0x49 :: rest) = Except.error (PErr.error ErrKind.tagK)) ∧
      (rest.length < 17 →
        tops_1_6_message (0x4f :: rest) = Except.error (PErr.error ErrKind.tagK)) ∧
      (rest.length < 18 →
        tops_1_6_message (0x50 :: rest) = Except.error (PErr.error ErrKind.tagK)) ∧
      (rest.length < 25 →
        tops_1_6_message (0x58 :: rest) = Except.error (PErr.error ErrKind.tagK)) ∧
      (rest.length < 37 →
        tops_1_6_message (0x42 :: rest) = Except.error (PErr.error ErrKind.tagK)) ∧
      (rest.length < 79 →
        tops_1_6_message (0x41 :: rest) = Except.error (PErr.error ErrKind.eofK))) ∧
    (∀ f : Nat, ∀ rest : Bytes, f % 64 = 0 →
      (16 ≤ rest.length → rest.length < 20 →
        tops_1_6_message (0x51 :: f :: rest) = Except.error (PErr.error ErrKind.tagK)) ∧
      (36 ≤ rest.length → rest.length < 40 →
        tops_1_6_message (0x51 :: f :: rest) = Except.error (PErr.error ErrKind.tagK))) ∧
    (∀ f : Nat, ∀ rest : Bytes, f % 8 = 0 →
      (16 ≤ rest.length → rest.length < 20 →
        tops_1_6_message (0x54 :: f :: rest) = Except.error (PErr.error ErrKind.tagK)) ∧
      (28 ≤ rest.length → rest.length < 36 →
        tops_1_6_message (0x54 :: f :: rest) = Except.error (PErr.error ErrKind.tagK))) ∧
    (tops_1_6_message [0x53] = Except.error (PErr.error ErrKind.tagK) ∧
     tops_1_6_message [0x51] = Except.error (PErr.error ErrKind.tagK) ∧
     tops_1_6_message [0x54] = Except.error (PErr.error ErrKind.tagK)) ∧
    (tops_1_6_message [0x51, 0x00, 0xAC, 0x63, 0xC0] = Except.error PErr.incomplete ∧
     tops_1_6_message (List.take 20 quoteVec) = Except.error (PErr.error ErrKind.tagK) ∧
     tops_1_6_message [0x44] = Except.error (PErr.error ErrKind.tagK)) := by
  refine ⟨tops_incomplete_iff, ?_, ?_, ?_, ⟨rfl, rfl, rfl⟩, ⟨rfl, rfl, rfl⟩⟩
  · intro rest
    exact ⟨fun h => tops_short_securityDirectory h, fun h => tops_short_tradingStatus h,
      fun h => tops_short_retail h, fun h => tops_short_operationalHalt h,
      fun h => tops_short_shortSale h, fun h => tops_short_officialPrice h,
      fun h => tops_short_tradeBreak h, fun h => tops_short_auction h⟩
  · intro f rest hf
    exact ⟨fun h1 h2 => tops_quote_eof_bidsize hf h1 h2,
      fun h1 h2 => tops_quote_eof_asksize hf h1 h2⟩
  · intro f rest hf
    exact ⟨fun h1 h2 => tops_trade_eof_size hf h1 h2,
      fun h1 h2 => tops_trade_eof_id hf h1 h2⟩

theorem c3_incomplete_amended_witness :
    tops_1_6_message [0x51, 0x00, 0xAC, 0x63, 0xC0] = Except.error PErr.incomplete ∧
    tops_1_6_message (0x44 :: ([] : Bytes)) = Except.error (PErr.error ErrKind.tagK) ∧
    tops_1_6_message (0x41 :: ([] : Bytes)) = Except.error (PErr.error ErrKind.eofK) ∧
    tops_1_6_message (0x51 :: 0x00 ::
        [1, 2, 3, 4, 5, 6, 7, 8, 9, 10, 11, 12, 13, 14, 15, 16, 17, 18]) =
      Except.error (PErr.error ErrKind.tagK) :=
  ⟨(c3_incomplete_amended.1 [0x51, 0x00, 0xAC, 0x63, 0xC0]).mpr
      (Or.inr (Or.inl ⟨0x00, [0xAC, 0x63, 0xC0], rfl, rfl, Or.inl (by decide)⟩)),
   (c3_incomplete_amended.2.1 []).1 (by decide),
   (c3_incomplete_amended.2.1 []).2.2.2.2.2.2.2 (by decide),
   (c3_incomplete_amended.2.2.1 0x00
      [1, 2, 3, 4, 5, 6, 7, 8, 9, 10, 11, 12, 13, 14, 15, 16, 17, 18] rfl).1
      (by decide) (by decide)⟩

/-- C4: a QuoteUpdate flag byte with any of its 6 reserved
least-significant bits set, or a TradeReport sale-condition byte with
any of its 3 reserved bits set, is rejected with the reserved-bit
(TagBits) violation by the message decoder, and the top-level decoder
then fails as well (with the tag error of the final alternative), never
returning a record. -/
theorem c4_reserved_bits_reject :
    (∀ f i : Nat, ∀ rest : Bytes, f < 256 → i < 6 → f.testBit i = true →
      quote_update (0x51 :: f :: rest) = Except.error (PErr.error ErrKind.tagBitsK) ∧
      tops_1_6_message (0x51 :: f :: rest) = Except.error (PErr.error ErrKind.tagK)) ∧
    (∀ f i : Nat, ∀ rest : Bytes, f < 256 → i < 3 → f.testBit i = true →
      trade_report (0x54 :: f :: rest) = Except.error (PErr.error ErrKind.tagBitsK) ∧
      tops_1_6_message (0x54 :: f :: rest) = Except.error (PErr.error ErrKind.tagK)) := by
  constructor
  · intro f i rest hf hi hbit
    have h64 := reserved6_nonzero hf hi hbit
    exact ⟨quote_update_reserved_reject h64, tops_reserved_quote_reject h64⟩
  · intro f i rest hf hi hbit
    have h8 := reserved3_nonzero hf hi hbit
    exact ⟨trade_report_reserved_reject h8, tops_reserved_trade_reject h8⟩

theorem c4_reserved_bits_reject_witness :
    (quote_update [0x51, 0x01] = Except.error (PErr.error ErrKind.tagBitsK) ∧
      tops_1_6_message [0x51, 0x01] = Except.error (PErr.error ErrKind.tagK)) ∧
    (trade_report [0x54, 0x04] = Except.error (PErr.error ErrKind.tagBitsK) ∧
      tops_1_6_message [0x54, 0x04] = Except.error (PErr.error ErrKind.tagK)) :=
  ⟨c4_reserved_bits_reject.1 0x01 0 [] (by decide) (by decide) (by decide),
   c4_reserved_bits_reject.2 0x04 2 [] (by decide) (by decide) (by decide)⟩

/-- C5: the 42-byte reference vector from the repository tests decodes
to a QuoteUpdate with available true, regular session, symbol ZIEXT
(trailing spaces trimmed), bid size 9700 at exactly 99.05, ask size 1000
at exactly 99.07, and no remaining bytes. -/
theorem c5_quote_reference_vector :
    tops_1_6_message quoteVec =
      Except.ok ([], Tops1_6Message.quoteUpdate
        (QuoteUpdate.mk true MarketSession.regular 1471980632572715948 "ZIEXT"
          9700 ((9905 : ℚ) / 100) 1000 ((9907 : ℚ) / 100))) := tops_quoteVec

/-- C6: the SystemEvent decoder maps exactly the six subtype bytes 0x4f,
0x53, 0x52, 0x4d, 0x45, 0x43 to the six variants, fails with the tag
error on any other subtype byte, then reads an 8-byte little-endian
nanosecond timestamp; the 10-byte reference vector decodes to
EndOfSystemHours at 1492448400000000000 ns with no remaining bytes. -/
theorem c6_system_event_decoder :
    (∀ rest : Bytes,
      systemEventSubtype (0x4f :: rest) = Except.ok (rest, SystemEventType.startOfMessages) ∧
      systemEventSubtype (0x53 :: rest) = Except.ok (rest, SystemEventType.startOfSystemHours) ∧
      systemEventSubtype (0x52 :: rest) = Except.ok (rest, SystemEventType.startOfRegularHours) ∧
      systemEventSubtype (0x4d :: rest) = Except.ok (rest, SystemEventType.endOfRegularHours) ∧
      systemEventSubtype (0x45 :: rest) = Except.ok (rest, SystemEventType.endOfSystemHours) ∧
      systemEventSubtype (0x43 :: rest) = Except.ok (rest, SystemEventType.endOfMessages)) ∧
    (∀ b : Nat, ∀ rest : Bytes, b ≠ 0x4f → b ≠ 0x53 → b ≠ 0x52 → b ≠ 0x4d → b ≠ 0x45 →
      b ≠ 0x43 → systemEventSubtype (b :: rest) = Except.error (PErr.error ErrKind.tagK)) ∧
    (∀ b : Nat, ∀ et : SystemEventType, ∀ ts rest : Bytes,
      systemEventSubtype (b :: (ts ++ rest)) = Except.ok (ts ++ rest, et) → ts.length = 8 →
      system_event (0x53 :: b :: (ts ++ rest)) =
        Except.ok (rest, SystemEvent.mk et (toI64 (leBytes ts)))) ∧
    tops_1_6_message sysVec =
      Except.ok ([], Tops1_6Message.systemEvent
        (SystemEvent.mk SystemEventType.endOfSystemHours 1492448400000000000)) := by
  refine ⟨?_, ?_, ?_, tops_sysVec⟩
  · intro rest
    exact ⟨rfl, rfl, rfl, rfl, rfl, rfl⟩
  · intro b rest h1 h2 h3 h4 h5 h6
    simp [systemEventSubtype, h1, h2, h3, h4, h5, h6]
  · intro b et ts rest hsub hts
    exact system_event_eval hsub hts

theorem c6_system_event_decoder_witness :
    systemEventSubtype [0x00] = Except.error (PErr.error ErrKind.tagK) ∧
    system_event (0x53 :: 0x45 ::
        ([0x00, 0xA0, 0x99, 0x97, 0xE9, 0x3D, 0xB6, 0x14] ++ ([] : Bytes))) =
      Except.ok ([], SystemEvent.mk SystemEventType.endOfSystemHours
        (toI64 (leBytes [0x00, 0xA0, 0x99, 0x97, 0xE9, 0x3D, 0xB6, 0x14]))) :=
  ⟨c6_system_event_decoder.2.1 0x00 [] (by decide) (by decide) (by decide) (by decide)
      (by decide) (by decide),
   c6_system_event_decoder.2.2.1 0x45 SystemEventType.endOfSystemHours
      [0x00, 0xA0, 0x99, 0x97, 0xE9, 0x3D, 0xB6, 0x14] [] rfl rfl⟩

/-- C7: every accepted QuoteUpdate input starts 0x51 then a flag byte
whose 6 reserved bits are zero, the decoded available field is the
negation of the most significant bit of the flag byte, and market_session is
derived from the next bit (set means OutOfHours). -/
theorem c7_quote_flag_semantics :
    ∀ input rest : Bytes, ∀ q : QuoteUpdate, quote_update input = Except.ok (rest, q) →
      ∃ f tl, input = 0x51 :: f :: tl ∧ f % 64 = 0 ∧
        q.available = !f.testBit 7 ∧
        q.market_session =
          (if f.testBit 6 then MarketSession.outOfHours else MarketSession.regular) :=
  fun _ _ _ h => quote_update_inv h

theorem c7_quote_flag_semantics_witness :
    ∃ f tl, quoteVec = 0x51 :: f :: tl ∧ f % 64 = 0 ∧
      (QuoteUpdate.mk true MarketSession.regular 1471980632572715948 "ZIEXT"
        9700 ((9905 : ℚ) / 100) 1000 ((9907 : ℚ) / 100)).available = !f.testBit 7 ∧
      (QuoteUpdate.mk true MarketSession.regular 1471980632572715948 "ZIEXT"
        9700 ((9905 : ℚ) / 100) 1000 ((9907 : ℚ) / 100)).market_session =
        (if f.testBit 6 then MarketSession.outOfHours else MarketSession.regular) :=
  c7_quote_flag_semantics quoteVec []
    (QuoteUpdate.mk true MarketSession.regular 1471980632572715948 "ZIEXT"
      9700 ((9905 : ℚ) / 100) 1000 ((9907 : ℚ) / 100)) quote_update_quoteVec

/-- C8: any input whose leading byte matches none of the eleven known
tags fails with the tag-mismatch (unrecognized tag) error and returns no
record. -/
theorem c8_unrecognized_tag :
    ∀ b : Nat, ∀ rest : Bytes, b ∉ knownTags →
      tops_1_6_message (b :: rest) = Except.error (PErr.error ErrKind.tagK) := by
  intro b rest h
  rw [knownTags] at h
  simp only [List.mem_cons, List.not_mem_nil, or_false, not_or] at h
  obtain ⟨h1, h2, h3, h4, h5, h6, h7, h8, h9, h10, h11⟩ := h
  exact tops_mismatch h1 h2 h3 h4 h5 h6 h7 h8 h9 h10 h11

theorem c8_unrecognized_tag_witness :
    tops_1_6_message [0xFF] = Except.error (PErr.error ErrKind.tagK) :=
  c8_unrecognized_tag 0xFF [] (by decide)

/-- C9: each of the eight opaque administrative kinds decodes, from its
tag byte followed by a body of at least its fixed length, to the
corresponding payload-free marker variant, consuming exactly 1 + body
length bytes whatever the content of the body. -/
theorem c9_opaque_messages :
    (∀ body rest : Bytes, body.length = 30 →
      tops_1_6_message (0x44 :: (body ++ rest)) =
        Except.ok (rest, Tops1_6Message.securityDirectory)) ∧
    (∀ body rest : Bytes, body.length = 21 →
      tops_1_6_message (0x48 :: (body ++ rest)) =
        Except.ok (rest, Tops1_6Message.tradingStatus)) ∧
    (∀ body rest : Bytes, body.length = 17 →
      tops_1_6_message (0x49 :: (body ++ rest)) =
        Except.ok (rest, Tops1_6Message.retailLiquidityIndicator)) ∧
    (∀ body rest : Bytes, body.length = 17 →
      tops_1_6_message (0x4f :: (body ++ rest)) =
        Except.ok (rest, Tops1_6Message.operationalHaltStatus)) ∧
    (∀ body rest : Bytes, body.length = 18 →
      tops_1_6_message (0x50 :: (body ++ rest)) =
        Except.ok (rest, Tops1_6Message.shortSalePriceTestStatus)) ∧
    (∀ body rest : Bytes, body.length = 25 →
      tops_1_6_message (0x58 :: (body ++ rest)) =
        Except.ok (rest, Tops1_6Message.officialPrice)) ∧
    (∀ body rest : Bytes, body.length = 37 →
      tops_1_6_message (0x42 :: (body ++ rest)) =
        Except.ok (rest, Tops1_6Message.tradeBreak)) ∧
    (∀ body rest : Bytes, body.length = 79 →
      tops_1_6_message (0x41 :: (body ++ rest)) =
        Except.ok (rest, Tops1_6Message.auctionInformation)) := by
  refine ⟨fun body rest h => ?_, fun body rest h => ?_, fun body rest h => ?_,
    fun body rest h => ?_, fun body rest h => ?_, fun body rest h => ?_,
    fun body rest h => ?_, fun body rest h => ?_⟩
  · exact tops_ok_securityDirectory (pmap_ok (dummyMessage_eval h))
  · exact tops_ok_tradingStatus (pmap_ok (dummyMessage_eval h))
  · exact tops_ok_retail (pmap_ok (dummyMessage_eval h))
  · exact tops_ok_operationalHalt (pmap_ok (dummyMessage_eval h))
  · exact tops_ok_shortSale (pmap_ok (dummyMessage_eval h))
  · exact tops_ok_officialPrice (pmap_ok (dummyMessage_eval h))
  · exact tops_ok_tradeBreak (pmap_ok (dummyMessage_eval h))
  · exact tops_ok_auction (pmap_ok (dummyMessage_eval h))

theorem c9_opaque_messages_witness :
    tops_1_6_message (0x44 :: (List.replicate 30 0 ++ [])) =
      Except.ok ([], Tops1_6Message.securityDirectory) ∧
    tops_1_6_message (0x48 :: (List.replicate 21 0 ++ [])) =
      Except.ok ([], Tops1_6Message.tradingStatus) ∧
    tops_1_6_message (0x49 :: (List.replicate 17 0 ++ [])) =
      Except.ok ([], Tops1_6Message.retailLiquidityIndicator) ∧
    tops_1_6_message (0x4f :: (List.replicate 17 0 ++ [])) =
      Except.ok ([], Tops1_6Message.operationalHaltStatus) ∧
    tops_1_6_message (0x50 :: (List.replicate 18 0 ++ [])) =
      Except.ok ([], Tops1_6Message.shortSalePriceTestStatus) ∧
    tops_1_6_message (0x58 :: (List.replicate 25 0 ++ [])) =
      Except.ok ([], Tops1_6Message.officialPrice) ∧
    tops_1_6_message (0x42 :: (List.replicate 37 0 ++ [])) =
      Except.ok ([], Tops1_6Message.tradeBreak) ∧
    tops_1_6_message (0x41 :: (List.replicate 79 0 ++ [])) =
      Except.ok ([], Tops1_6Message.auctionInformation) :=
  ⟨c9_opaque_messages.1 (List.replicate 30 0) [] rfl,
   c9_opaque_messages.2.1 (List.replicate 21 0) [] rfl,
   c9_opaque_messages.2.2.1 (List.replicate 17 0) [] rfl,
   c9_opaque_messages.2.2.2.1 (List.replicate 17 0) [] rfl,
   c9_opaque_messages.2.2.2.2.1 (List.replicate 18 0) [] rfl,
   c9_opaque_messages.2.2.2.2.2.1 (List.replicate 25 0) [] rfl,
   c9_opaque_messages.2.2.2.2.2.2.1 (List.replicate 37 0) [] rfl,
   c9_opaque_messages.2.2.2.2.2.2.2 (List.replicate 79 0) [] rfl⟩

theorem dispatch_tags_nodup : (dispatchTable.map Prod.fst).Nodup := by decide

theorem perm_entry_case {T : List (Nat × (Bytes → PResult Tops1_6Message))}
    (hperm : T.Perm dispatchTable) {b : Nat} {p : Bytes → PResult Tops1_6Message}
    (hm : (b, p) ∈ dispatchTable) (rest : Bytes) :
    (∀ z, altList (T.map Prod.snd) (b :: rest) = Except.ok z ↔
      altList (dispatchTable.map Prod.snd) (b :: rest) = Except.ok z) ∧
    (altList (T.map Prod.snd) (b :: rest) = Except.error PErr.incomplete ↔
      altList (dispatchTable.map Prod.snd) (b :: rest) = Except.error PErr.incomplete) := by
  have hT : ∀ e ∈ T, e ∈ dispatchTable := fun e he => hperm.mem_iff.mp he
  have hndT : (T.map Prod.fst).Nodup :=
    ((hperm.map Prod.fst).nodup_iff).mpr dispatch_tags_nodup
  have h1 := altList_match hT hndT (hperm.mem_iff.mpr hm) rest
  have h2 := altList_match (fun _ he => he) dispatch_tags_nodup hm rest
  exact ⟨fun z => (h1.1 z).trans (h2.1 z).symm, h1.2.trans h2.2.symm⟩

/-- C10: the eleven top-level tag bytes are pairwise distinct; the
dispatcher agrees with its list-of-alternatives form on every success,
and permuting the list of alternatives changes neither which successful
result (hence which variant) is produced nor whether the outcome is the
incomplete-input condition. -/
theorem c10_dispatch_order_irrelevant :
    knownTags.Nodup ∧
    (∀ input : Bytes, ∀ z : Bytes × Tops1_6Message,
      tops_1_6_message input = Except.ok z ↔
        altList (dispatchTable.map Prod.snd) input = Except.ok z) ∧
    (∀ T : List (Nat × (Bytes → PResult Tops1_6Message)), T.Perm dispatchTable →
      ∀ input : Bytes,
      (∀ z, altList (T.map Prod.snd) input = Except.ok z ↔
        altList (dispatchTable.map Prod.snd) input = Except.ok z) ∧
      (altList (T.map Prod.snd) input = Except.error PErr.incomplete ↔
        altList (dispatchTable.map Prod.snd) input = Except.error PErr.incomplete)) := by
  refine ⟨by decide, tops_ok_iff_table, ?_⟩
  intro T hperm input
  have hT : ∀ e ∈ T, e ∈ dispatchTable := fun e he => hperm.mem_iff.mp he
  cases input with
  | nil =>
    rw [altList_nil_input hT, @altList_nil_input dispatchTable (fun _ he => he)]
    exact ⟨fun z => Iff.rfl, Iff.rfl⟩
  | cons b rest =>
    by_cases hb : b ∈ knownTags
    · rw [knownTags] at hb
      simp only [List.mem_cons, List.not_mem_nil, or_false] at hb
      rcases hb with rfl | rfl | rfl | rfl | rfl | rfl | rfl | rfl | rfl | rfl | rfl
      · exact perm_entry_case hperm
          (show (0x53, altSystemEvent) ∈ dispatchTable by simp [dispatchTable]) rest
      · exact perm_entry_case hperm
          (show (0x44, altSecurityDirectory) ∈ dispatchTable by simp [dispatchTable]) rest
      · exact perm_entry_case hperm
          (show (0x48, altTradingStatus) ∈ dispatchTable by simp [dispatchTable]) rest
      · exact perm_entry_case hperm
          (show (0x49, altRetailLiquidityIndicator) ∈ dispatchTable by
            simp [dispatchTable]) rest
      · exact perm_entry_case hperm
          (show (0x4f, altOperationalHaltStatus) ∈ dispatchTable by
            simp [dispatchTable]) rest
      · exact perm_entry_case hperm
          (show (0x50, altShortSalePriceTestStatus) ∈ dispatchTable by
            simp [dispatchTable]) rest
      · exact perm_entry_case hperm
          (show (0x51, altQuoteUpdate) ∈ dispatchTable by simp [dispatchTable]) rest
      · exact perm_entry_case hperm
          (show (0x54, altTradeReport) ∈ dispatchTable by simp [dispatchTable]) rest
      · exact perm_entry_case hperm
          (show (0x58, altOfficialPrice) ∈ dispatchTable by simp [dispatchTable]) rest
      · exact perm_entry_case hperm
          (show (0x42, altTradeBreak) ∈ dispatchTable by simp [dispatchTable]) rest
      · exact perm_entry_case hperm
          (show (0x41, altAuctionInformation) ∈ dispatchTable by simp [dispatchTable]) rest
    · rw [knownTags] at hb
      simp only [List.mem_cons, List.not_mem_nil, or_false, not_or] at hb
      obtain ⟨n1, n2, n3, n4, n5, n6, n7, n8, n9, n10, n11⟩ := hb
      have hbD : ∀ e ∈ dispatchTable, b ≠ e.1 := by
        intro e he
        fin_cases he <;> assumption
      rw [altList_mismatch hT (fun e he => hbD e (hT e he)),
          altList_mismatch (fun _ he => he) hbD]
      exact ⟨fun z => Iff.rfl, Iff.rfl⟩

theorem c10_dispatch_order_irrelevant_witness :
    (altList (dispatchTable.reverse.map Prod.snd) [0xFF] =
        Except.ok ([], Tops1_6Message.securityDirectory) ↔
      altList (dispatchTable.map Prod.snd) [0xFF] =
        Except.ok ([], Tops1_6Message.securityDirectory)) ∧
    (altList (dispatchTable.reverse.map Prod.snd) [0xFF] = Except.error PErr.incomplete ↔
      altList (dispatchTable.map Prod.snd) [0xFF] = Except.error PErr.incomplete) :=
  ⟨(c10_dispatch_order_irrelevant.2.2 dispatchTable.reverse
      (List.reverse_perm dispatchTable) [0xFF]).1 ([], Tops1_6Message.securityDirectory),
   (c10_dispatch_order_irrelevant.2.2 dispatchTable.reverse
      (List.reverse_perm dispatchTable) [0xFF]).2⟩

end IexTops
